import Mathlib

/-!
Verification of the goLV NIPALS PCA/PLS library.

This file gives a shallow embedding of the numeric core of the goLV
repository (packages `pca`, `pls`, `preprocess`, `utils`) and proves or
refutes the specification claims about it.

Modelling conventions:
  * `float64` values are idealised as elements of a linear ordered field
    (instantiated at `ℝ` for the claim theorems, with `Real.sqrt` for the
    square root used by the Euclidean norms).
  * gonum dense matrices of statically known shape are total functions
    `Fin r → Fin c → α`; dynamically shaped matrices (`StackDenseMatrices`,
    `SliceToDense`) are a `GoDense` record of row/column counts plus the
    row-major backing slice, mirroring `mat.Dense`.
  * In-place mutation is modelled by explicit state passing.  Functions
    that mutate caller-visible arguments (`NipalsPLS` deflates the caller's
    X and Y in place) additionally return the final values of those
    arguments.
  * `rand.Float64()` is modelled by an explicit stream `rand : ℕ → α`
    together with an offset counting the draws made so far.
  * Runtime panics are modelled by the `GoRun` sum type: `mat.NewDense`
    panics with `mat.ErrZeroLength` when either requested dimension is
    zero, so the top-level engines (`NIPALS`, `NipalsPLS`, `SliceToDense`)
    return `GoRun.panicked` on those inputs instead of a normal value.
-/

namespace GoLV

/-! ## Vectors and matrices of statically known shape -/

/-- Column vector of length `n` (a gonum `n×1` dense matrix). -/
abbrev Vec (n : ℕ) (α : Type) := Fin n → α

/-- Dense `r×c` matrix with statically known shape. -/
abbrev Mat (r c : ℕ) (α : Type) := Fin r → Fin c → α

variable {α : Type} [LinearOrderedField α]

/-- Matrix transpose, `X.T()` in gonum. -/
def transposeM {r c : ℕ} (M : Mat r c α) : Mat c r α := fun j i => M i j

/-- Matrix–vector product, `dst.Mul(M, v)` for a column vector `v`. -/
def mulMV {r c : ℕ} (M : Mat r c α) (v : Vec c α) : Vec r α :=
  fun i => ∑ j, M i j * v j

/-- Outer product `t·pᵀ`, `outer.Mul(t, p.T())` in the sources. -/
def outerProduct {r c : ℕ} (t : Vec r α) (p : Vec c α) : Mat r c α :=
  fun i j => t i * p j

/-- Overwrite column `j` of `M` with `v`: gonum `M.SetCol(j, v)`. -/
def setCol {r k : ℕ} (M : Mat r k α) (j : Fin k) (v : Vec r α) : Mat r k α :=
  fun a b => if b = j then v a else M a b

/-- Euclidean norm `sqrt (Σ vᵢ²)`.  Both `floats.Norm(data, 2)` and
`mat.Norm(m, 2)` (Frobenius) reduce to this on the column vectors the
engines use.  The square-root function is passed explicitly so that the
definitions stay polymorphic. -/
def norm2 {n : ℕ} (sqrt : α → α) (v : Vec n α) : α := sqrt (∑ i, v i * v i)

/-! ## Dynamically shaped dense matrices (`mat.Dense` with runtime shape) -/

/-- Dense matrix whose shape is only known at run time: row and column
counts plus the row-major backing slice, as in gonum `mat.Dense`. -/
structure GoDense (α : Type) where
  rows : ℕ
  cols : ℕ
  data : List α
  deriving Repr, DecidableEq

/-- View a statically sized column vector as an `n×1` `GoDense`. -/
def colVecToDense {n : ℕ} (v : Vec n α) : GoDense α :=
  { rows := n, cols := 1, data := (List.finRange n).map v }

/-- Outcome of running a Go function that may panic: `ret` is a normal
return, `panicked` models a runtime panic.  gonum's constructors panic
with `mat.ErrZeroLength` ("mat: zero length in matrix dimension") when
either dimension of a `mat.NewDense` call is zero, rather than returning
an error value. -/
inductive GoRun (β : Type) where
  | ret : β → GoRun β
  | panicked : String → GoRun β
  deriving Repr, DecidableEq

/-! ## Package `utils` -/

/-- Embedding of `utils.SliceToDense`.  The Go function returns a
`*mat.Dense` pointer; `GoRun.ret none` models the `nil` returned for rows
of unequal lengths (after printing a message).  When the outer slice is
empty or its first row is empty the source executes
`mat.NewDense(0, 0, nil)`, which panics — gonum rejects zero dimensions —
so that path is a crash, not a returned `0×0` matrix. -/
def SliceToDense (d : List (List α)) : GoRun (Option (GoDense α)) :=
  if d.length = 0 ∨ (d.headD []).length = 0 then
    GoRun.panicked "mat: zero length in matrix dimension"
  else
    let cols := (d.headD []).length
    if d.all (fun row => row.length = cols) then
      GoRun.ret (some { rows := d.length, cols := cols, data := d.flatten })
    else
      GoRun.ret none

/-! ## Package `preprocess` -/

/-- Embedding of `preprocess.colMean`: per-column mean, `mat.Sum(col)/r`. -/
def colMean {r c : ℕ} (X : Mat r c α) : Vec c α :=
  fun j => (∑ i, X i j) / (r : α)

/-- Embedding of `preprocess.MeanCenter`: returns the freshly allocated
centered matrix together with the column means used. -/
def MeanCenter {r c : ℕ} (X : Mat r c α) : Mat r c α × Vec c α :=
  (fun i j => X i j - colMean X j, colMean X)

/-! ## Package `pca` -/

/-- The fixed convergence tolerance `epsilon := 1e-6` of `pca.NIPALS`. -/
def pcaEpsilon : α := 1 / 1000000

/-- The fixed iteration cap `maxIterations := 500` of `pca.NIPALS`. -/
def pcaMaxIterations : ℕ := 500

/-- Per-column variance as computed inside `pca.initialScoreVector`:
`variance/rows - mean*mean` with `mean = (Σ values)/rows`. -/
def colVariance {r c : ℕ} (X : Mat r c α) (j : Fin c) : α :=
  (∑ i, X i j * X i j) / (r : α) - ((∑ i, X i j) / (r : α)) * ((∑ i, X i j) / (r : α))

/-- Index scan of `pca.initialScoreVector`: the first column whose
variance strictly exceeds all previous ones, starting from
`maxVariance = 0.0`, `columnIndex = 0`. -/
def initialScoreVectorIndex {r c : ℕ} [NeZero c] (X : Mat r c α) : Fin c :=
  ((List.finRange c).foldl
    (fun acc j => if acc.1 < colVariance X j then (colVariance X j, j) else acc)
    ((0 : α), ⟨0, Nat.pos_of_neZero c⟩)).2

/-- Embedding of `pca.initialScoreVector`: the column of `X` with the
highest variance (ties and all-nonpositive variances fall back to
column 0, as in the Go scan). -/
def initialScoreVector {r c : ℕ} [NeZero c] (X : Mat r c α) : Vec r α :=
  fun i => X i (initialScoreVectorIndex X)

/-- Inner iteration of `pca.NIPALS` (the `for j < maxIterations` loop).
The state is the pair `(t, p)`; `fuel` counts the remaining iterations.
Returns the values of `t` and `p` when the loop exits.  The incoming `p`
is only returned when the fuel is already exhausted, mirroring the outer
`var p mat.Dense` whose stale value is never observed because
`maxIterations = 500 > 0`. -/
def pcaLoop {r c : ℕ} (sqrt : α → α) (X : Mat r c α) :
    ℕ → Vec r α → Vec c α → Vec r α × Vec c α
  | 0, t, p => (t, p)
  | fuel + 1, t, _p =>
    let pUn := mulMV (transposeM X) t
    let pNorm := norm2 sqrt pUn
    if pNorm = 0 then (t, pUn)
    else
      let p := fun j => 1 / pNorm * pUn j
      let tNew := mulMV X p
      if norm2 sqrt tNew - norm2 sqrt t < pcaEpsilon then (t, p)
      else pcaLoop sqrt X fuel tNew p

/-- Mutable state of the `pca.NIPALS` component loop: the scores and
loadings matrices being filled, the eigenvalue slice, and the residual
matrix `XRes`. -/
structure PCAState (α : Type) (r c k : ℕ) where
  T : Mat r k α
  P : Mat c k α
  eig : Vec k α
  XRes : Mat r c α

/-- Body of the `for i < numComponents` loop of `pca.NIPALS`: run the
inner loop from the maximum-variance column of the residual, store `t`
and `p` as column `i`, deflate the residual by `outer(t, p)`, and record
the eigenvalue as the squared norm of the freshly stored scores column. -/
def pcaComponentStep {r c k : ℕ} [NeZero c] (sqrt : α → α)
    (st : PCAState α r c k) (i : Fin k) : PCAState α r c k :=
  let t0 := initialScoreVector st.XRes
  let res := pcaLoop sqrt st.XRes pcaMaxIterations t0 (fun _ => 0)
  let t := res.1
  let p := res.2
  let Tn := setCol st.T i t
  let Pn := setCol st.P i p
  let e := norm2 sqrt (fun a => Tn a i)
  { T := Tn
    P := Pn
    eig := Function.update st.eig i (e * e)
    XRes := fun a b => st.XRes a b - outerProduct t p a b }

/-- Return bundle of `pca.NIPALS`.  `err` is the (structurally present)
error return; `finalX` is the caller-visible value of the input matrix
after the call — the Go function copies `X` into `XRes` and never writes
through `X`, so it is returned unchanged. -/
structure PCAResult (α : Type) (r c k : ℕ) where
  T : Mat r k α
  P : Mat c k α
  eigenvalues : Vec k α
  err : Option String
  finalX : Mat r c α

/-- Body of `pca.NIPALS` after the scores/loadings allocations succeed:
the component loop with deflation, reached only with nonzero row, column
and component counts (the wrapper `NIPALS` below models the allocation
panics on zero dimensions). -/
def nipalsBody {r c : ℕ} [NeZero c] (sqrt : α → α) (X : Mat r c α) (k : ℕ) :
    PCAResult α r c k :=
  let init : PCAState α r c k :=
    { T := fun _ _ => 0, P := fun _ _ => 0, eig := fun _ => 0, XRes := X }
  let fin := (List.finRange k).foldl (pcaComponentStep sqrt) init
  { T := fin.T, P := fin.P, eigenvalues := fin.eig, err := none, finalX := X }

/-- Embedding of `pca.NIPALS`, allocation panics included:
`T := mat.NewDense(rows, numComponents, nil)` and
`P := mat.NewDense(cols, numComponents, nil)` panic when the row count,
the column count or the requested component count is zero; otherwise the
algorithm body runs and returns normally. -/
def NIPALS {r c : ℕ} (sqrt : α → α) (X : Mat r c α) (k : ℕ) :
    GoRun (PCAResult α r c k) :=
  if r = 0 ∨ k = 0 then GoRun.panicked "mat: zero length in matrix dimension"
  else
    match c, X with
    | 0, _ => GoRun.panicked "mat: zero length in matrix dimension"
    | _ + 1, X => GoRun.ret (nipalsBody sqrt X k)

/-! ## Package `pls` -/

/-- Embedding of `pls.normalize`: rescale `x` in place to unit norm,
unless the norm is exactly zero, in which case `x` is left unchanged. -/
def normalizeV {n : ℕ} (sqrt : α → α) (v : Vec n α) : Vec n α :=
  let norm := norm2 sqrt v
  if norm ≠ 0 then fun i => 1 / norm * v i else v

/-- Embedding of `pls.normDiff` on two (non-nil) column vectors: the
Euclidean norm of `a - b`.  The Go `nil → +Inf` branch is only reachable
while `tOld` is still nil, i.e. in iteration 0, which the call site
already short-circuits with `iteration > 0 &&`. -/
def normDiff {n : ℕ} (sqrt : α → α) (a b : Vec n α) : α :=
  norm2 sqrt (fun i => a i - b i)

/-- Embedding of `pls.deflate`: `X := X - t·pᵀ`, written in place in Go;
here the updated matrix is returned. -/
def deflate {r c : ℕ} (X : Mat r c α) (t : Vec r α) (p : Vec c α) : Mat r c α :=
  fun i j => X i j - outerProduct t p i j

/-- Embedding of `pls.InitializeScores`: a fresh vector of `rows`
pseudo-random draws.  `off` is the number of draws made before this call. -/
def InitializeScores (rand : ℕ → α) (off : ℕ) (rows : ℕ) : Vec rows α :=
  fun i => rand (off + i.1)

/-- State of the inner `for iteration < maxIter` loop of `pls.NipalsPLS`:
the four in-place vectors `t, p, q, u`, the values of the freshly
allocated `w` vectors appended to `W` so far, and the number of times the
loop body reached the three `append` statements. -/
structure PLSInnerState (α : Type) (R Cx Cy : ℕ) where
  t : Vec R α
  p : Vec Cx α
  q : Vec Cy α
  u : Vec R α
  ws : List (Vec Cx α)
  appends : ℕ

/-- Inner iteration of `pls.NipalsPLS`.  `fuel` is the number of
remaining iterations (`maxIter - iter`) and `iter` the Go loop counter.
The statement `tOld = t` in the source copies the *pointer*, so from
iteration 1 on `normDiff(t, tOld)` reads the current (already mutated)
value of `t` through both arguments; the convergence test is therefore
embedded as `normDiff t t` guarded by `0 < iter`. -/
def plsInnerLoop {R Cx Cy : ℕ} (sqrt : α → α) (X : Mat R Cx α) (Y : Mat R Cy α)
    (tol : α) : ℕ → ℕ → PLSInnerState α R Cx Cy → PLSInnerState α R Cx Cy
  | 0, _, st => st
  | fuel + 1, iter, st =>
    let w := normalizeV sqrt (mulMV (transposeM X) st.u)
    let t := normalizeV sqrt (mulMV X w)
    if 0 < iter ∧ normDiff sqrt t t < tol then { st with t := t }
    else
      let p := mulMV (transposeM X) t
      let q := mulMV (transposeM Y) st.u
      let u := mulMV Y q
      plsInnerLoop sqrt X Y tol fuel (iter + 1)
        { t := t, p := p, q := q, u := u, ws := st.ws ++ [w], appends := st.appends + 1 }

/-- State of the `for c < ncomp` loop of `pls.NipalsPLS`.  `X` and `Y`
are the caller's matrices (deflated in place by the Go code), `T` the
scores matrix, `Ps`/`Qs`/`Ws` the accumulator slices, and `off` the
number of random draws consumed so far. -/
structure PLSState (α : Type) (R Cx Cy k : ℕ) where
  X : Mat R Cx α
  Y : Mat R Cy α
  T : Mat R k α
  Ps : List (Vec Cx α)
  Qs : List (Vec Cy α)
  Ws : List (Vec Cx α)
  off : ℕ

/-- The inner-loop state at the top of each component of `pls.NipalsPLS`:
`t`, `p`, `q` are bound to fresh zero vectors (`mat.NewDense(..., nil)`),
and `u` — despite the preceding `u := InitializeScores(Y)` — is
reassigned to `mat.NewDense(rowsX, 1, nil)`, i.e. the zero vector. -/
def plsStartState {R Cx Cy : ℕ} : PLSInnerState α R Cx Cy :=
  { t := fun _ => 0, p := fun _ => 0, q := fun _ => 0, u := fun _ => 0
    ws := [], appends := 0 }

/-- Body of the component loop of `pls.NipalsPLS`.  Notes kept from the
source:
  * `u := InitializeScores(Y)` draws `R` random values, but the next
    lines rebind `t, p, q` to fresh zero vectors and then reassign
    `u = mat.NewDense(rowsX, 1, nil)`, so the inner loop actually starts
    from the all-zero `u` and the random draw is dead.
  * `P = append(P, p)` appends the same pointer in every iteration and
    `p` is mutated in place, so when the loop ends every appended entry
    of this component holds the final value of `p` — hence the
    `List.replicate appends p`.  The same holds for `q`; each `w` is a
    fresh allocation, so `Ws` keeps one value per iteration. -/
def plsComponentStep {R Cx Cy k : ℕ} (sqrt : α → α) (rand : ℕ → α)
    (maxIter : ℕ) (tol : α) (st : PLSState α R Cx Cy k) (_c : Fin k) :
    PLSState α R Cx Cy k :=
  let _uRand := InitializeScores rand st.off R
  let res := plsInnerLoop sqrt st.X st.Y tol maxIter 0 plsStartState
  { X := deflate st.X res.t res.p
    Y := deflate st.Y res.t res.q
    T := setCol st.T _c res.t
    Ps := st.Ps ++ List.replicate res.appends res.p
    Qs := st.Qs ++ List.replicate res.appends res.q
    Ws := st.Ws ++ res.ws
    off := st.off + R }

/-- Embedding of `pls.StackDenseMatrices`: vertically stack the given
matrices after checking that they all share the column count of the
first; empty input or a mismatch is an explicit error. -/
def StackDenseMatrices (ms : List (GoDense α)) : Except String (GoDense α) :=
  match ms with
  | [] => Except.error "no matrices to stack"
  | m0 :: _ =>
    if ms.all (fun m => m.cols = m0.cols) then
      Except.ok
        { rows := (ms.map GoDense.rows).sum
          cols := m0.cols
          data := (ms.map GoDense.data).flatten }
    else
      Except.error "matrices have different number of columns"

/-- The result map `{"T": …, "P": …, "Q": …, "W": …}` of `pls.NipalsPLS`. -/
structure PLSResult (α : Type) (R k : ℕ) where
  T : Mat R k α
  P : GoDense α
  Q : GoDense α
  W : GoDense α

/-- Body of `pls.NipalsPLS` after the matrix allocations succeed
(nonzero row count, column counts and component count; the wrapper
`NipalsPLS` below models the allocation panics).  The first component is
the function's Go return value (result map or error); the second and
third are the caller-visible values of `X` and `Y` after the call — the
Go code deflates the caller's matrices in place. -/
def nipalsPLSBody {R Cx Cy : ℕ} (sqrt : α → α) (rand : ℕ → α)
    (X : Mat R Cx α) (Y : Mat R Cy α) (ncomp maxIter : ℕ) (tol : α) :
    Except String (PLSResult α R ncomp) × Mat R Cx α × Mat R Cy α :=
  let init : PLSState α R Cx Cy ncomp :=
    { X := X, Y := Y, T := fun _ _ => 0, Ps := [], Qs := [], Ws := [], off := 0 }
  let fin := (List.finRange ncomp).foldl
    (plsComponentStep sqrt rand maxIter tol) init
  let result : Except String (PLSResult α R ncomp) := do
    let Pmat ← StackDenseMatrices (fin.Ps.map colVecToDense)
    let Qmat ← StackDenseMatrices (fin.Qs.map colVecToDense)
    let Wmat ← StackDenseMatrices (fin.Ws.map colVecToDense)
    pure { T := fin.T, P := Pmat, Q := Qmat, W := Wmat }
  (result, fin.X, fin.Y)

/-- Embedding of `pls.NipalsPLS`, allocation panics included:
`T := mat.NewDense(rowsX, ncomp, nil)` panics when the row count or the
component count is zero, and the first component's
`p := mat.NewDense(colsX, 1, nil)` / `q := mat.NewDense(colsY, 1, nil)`
panic on a zero column count; otherwise the body runs and returns. -/
def NipalsPLS {R Cx Cy : ℕ} (sqrt : α → α) (rand : ℕ → α)
    (X : Mat R Cx α) (Y : Mat R Cy α) (ncomp maxIter : ℕ) (tol : α) :
    GoRun (Except String (PLSResult α R ncomp) × Mat R Cx α × Mat R Cy α) :=
  if R = 0 ∨ ncomp = 0 ∨ Cx = 0 ∨ Cy = 0 then
    GoRun.panicked "mat: zero length in matrix dimension"
  else
    GoRun.ret (nipalsPLSBody sqrt rand X Y ncomp maxIter tol)

/-! ## Concrete inputs used by the claims -/

/-- The number of times the inner PLS loop body reaches its three
`append` statements when started with `fuel` remaining iterations at
loop counter `iter` from the all-zero state (which, by
`plsInnerLoop_zeroState` below, is the state of every actual run). -/
def plsZeroAppendCount (tol : α) (fuel iter : ℕ) : ℕ :=
  if 0 < tol then (if fuel = 0 ∨ 0 < iter then 0 else 1) else fuel

/-- The fixed 7×5 test matrix of the specification and of `TestNIPALS`. -/
def testX : Mat 7 5 ℝ :=
  ![![-1.18, -1.43, -1.17, -1.37, -1.61],
    ![-0.59, -0.99, -0.82, -1.12, -0.89],
    ![0.59, -0.44, -0.58, -0.93, -0.48],
    ![-1.18, 0, 0.23, 0.62, -0.16],
    ![0, 0.22, -0.35, 0.93, 0.89],
    ![0.59, 0.99, 0.70, 1.06, 1.05],
    ![1.77, 1.65, 1.99, 0.81, 1.21]]

/-- Expected first-component scores from the specification. -/
def expectedScores1 : Vec 7 ℝ :=
  ![-3.034, -1.981, -0.874, -0.168, 0.764, 1.977, 3.316]

/-- Expected first-component loadings from the specification. -/
def expectedLoadings1 : Vec 5 ℝ :=
  ![0.391, 0.487, 0.454, 0.426, 0.471]

/-- One-by-one all-ones matrix, used as a tiny concrete input. -/
def ones11 : Mat 1 1 ℝ := fun _ _ => 1

/-- One-by-one all-twos matrix, used as a tiny concrete input. -/
def twos11 : Mat 1 1 ℝ := fun _ _ => 2

/-- One-by-one zero matrix, used as a tiny concrete input. -/
def zeros11 : Mat 1 1 ℝ := fun _ _ => 0

/-! ## Vector-literal evaluation lemmas -/

theorem vec7_at0 {β : Type} (a b c d e f g : β) : ![a,b,c,d,e,f,g] 0 = a := rfl

theorem vec7_at1 {β : Type} (a b c d e f g : β) : ![a,b,c,d,e,f,g] 1 = b := rfl

theorem vec7_at2 {β : Type} (a b c d e f g : β) : ![a,b,c,d,e,f,g] 2 = c := rfl

theorem vec7_at3 {β : Type} (a b c d e f g : β) : ![a,b,c,d,e,f,g] 3 = d := rfl

theorem vec7_at4 {β : Type} (a b c d e f g : β) : ![a,b,c,d,e,f,g] 4 = e := rfl

theorem vec7_at5 {β : Type} (a b c d e f g : β) : ![a,b,c,d,e,f,g] 5 = f := rfl

theorem vec7_at6 {β : Type} (a b c d e f g : β) : ![a,b,c,d,e,f,g] 6 = g := rfl

theorem vec5_at0 {β : Type} (a b c d e : β) : ![a,b,c,d,e] 0 = a := rfl

theorem vec5_at1 {β : Type} (a b c d e : β) : ![a,b,c,d,e] 1 = b := rfl

theorem vec5_at2 {β : Type} (a b c d e : β) : ![a,b,c,d,e] 2 = c := rfl

theorem vec5_at3 {β : Type} (a b c d e : β) : ![a,b,c,d,e] 3 = d := rfl

theorem vec5_at4 {β : Type} (a b c d e : β) : ![a,b,c,d,e] 4 = e := rfl

/-! ## Zero propagation through the PLS engine

Because the source overwrites the random `u` with `mat.NewDense(rowsX, 1,
nil)` before the inner loop, every vector the loop computes is the zero
vector; these lemmas characterise a full run. -/

theorem mulMV_zeroVec {r c : ℕ} (M : Mat r c α) :
    mulMV M (fun _ => (0 : α)) = fun _ => 0 := by
  funext i
  simp [mulMV]

theorem norm2_zeroVec {n : ℕ} (sqrt : α → α) (h0 : sqrt 0 = 0) :
    norm2 sqrt (fun _ : Fin n => (0 : α)) = 0 := by
  simp [norm2, h0]

theorem normalizeV_zeroVec {n : ℕ} (sqrt : α → α) (h0 : sqrt 0 = 0) :
    normalizeV sqrt (fun _ : Fin n => (0 : α)) = fun _ => 0 := by
  simp [normalizeV, norm2_zeroVec sqrt h0]

theorem normDiff_self {n : ℕ} (sqrt : α → α) (h0 : sqrt 0 = 0) (t : Vec n α) :
    normDiff sqrt t t = 0 := by
  simp [normDiff, norm2, h0]

theorem plsInnerLoop_zeroState {R Cx Cy : ℕ} (sqrt : α → α) (h0 : sqrt 0 = 0)
    (X : Mat R Cx α) (Y : Mat R Cy α) (tol : α) :
    ∀ (fuel iter : ℕ) (ws0 : List (Vec Cx α)) (a : ℕ),
      plsInnerLoop sqrt X Y tol fuel iter
        { t := fun _ => 0, p := fun _ => 0, q := fun _ => 0, u := fun _ => 0
          ws := ws0, appends := a } =
      { t := fun _ => 0, p := fun _ => 0, q := fun _ => 0, u := fun _ => 0
        ws := ws0 ++ List.replicate (plsZeroAppendCount tol fuel iter) (fun _ => 0)
        appends := a + plsZeroAppendCount tol fuel iter } := by
  intro fuel
  induction fuel with
  | zero =>
    intro iter ws0 a
    simp only [plsInnerLoop, plsZeroAppendCount]
    split <;> simp
  | succ fuel ih =>
    intro iter ws0 a
    rw [plsInnerLoop]
    simp only [mulMV_zeroVec, normalizeV_zeroVec sqrt h0,
      normDiff_self sqrt h0]
    by_cases ht : 0 < tol
    · by_cases hi : 0 < iter
      · rw [if_pos ⟨hi, ht⟩]
        simp [plsZeroAppendCount, ht, hi]
      · rw [if_neg (fun h => hi h.1)]
        rw [ih]
        simp [plsZeroAppendCount, ht, hi]
    · rw [if_neg (fun h => ht h.2)]
      rw [ih]
      simp only [plsZeroAppendCount, ht, if_false, List.append_assoc,
        List.singleton_append, PLSInnerState.mk.injEq, true_and]
      exact ⟨by rw [← List.replicate_succ], by omega⟩

theorem deflate_zeroT {r c : ℕ} (X : Mat r c α) (p : Vec c α) :
    deflate X (fun _ => 0) p = X := by
  funext i j
  simp [deflate, outerProduct]

theorem setCol_zeroMat {r k : ℕ} (c : Fin k) :
    setCol (fun _ _ => (0 : α)) c (fun _ => 0) = fun (_ : Fin r) _ => (0 : α) := by
  funext a b
  simp [setCol]

theorem foldl_setCol_zeroMat {r k : ℕ} :
    ∀ l : List (Fin k),
      l.foldl (fun T c => setCol T c (fun _ => 0)) (fun _ _ => (0 : α)) =
        fun (_ : Fin r) _ => (0 : α)
  | [] => rfl
  | c :: l => by
    rw [List.foldl_cons, setCol_zeroMat, foldl_setCol_zeroMat l]

theorem plsComponentStep_zeroRun {R Cx Cy k : ℕ} (sqrt : α → α) (h0 : sqrt 0 = 0)
    (rand : ℕ → α) (maxIter : ℕ) (tol : α) (st : PLSState α R Cx Cy k) (c : Fin k) :
    plsComponentStep sqrt rand maxIter tol st c =
      { X := st.X, Y := st.Y
        T := setCol st.T c (fun _ => 0)
        Ps := st.Ps ++ List.replicate (plsZeroAppendCount tol maxIter 0) (fun _ => 0)
        Qs := st.Qs ++ List.replicate (plsZeroAppendCount tol maxIter 0) (fun _ => 0)
        Ws := st.Ws ++ List.replicate (plsZeroAppendCount tol maxIter 0) (fun _ => 0)
        off := st.off + R } := by
  simp only [plsComponentStep, plsStartState]
  rw [plsInnerLoop_zeroState sqrt h0 st.X st.Y tol maxIter 0 [] 0]
  simp [deflate_zeroT]

theorem plsFold_zeroRun {R Cx Cy k : ℕ} (sqrt : α → α) (h0 : sqrt 0 = 0)
    (rand : ℕ → α) (maxIter : ℕ) (tol : α) :
    ∀ (l : List (Fin k)) (st : PLSState α R Cx Cy k),
      l.foldl (plsComponentStep sqrt rand maxIter tol) st =
        { X := st.X, Y := st.Y
          T := l.foldl (fun T c => setCol T c (fun _ => 0)) st.T
          Ps := st.Ps ++
            List.replicate (l.length * plsZeroAppendCount tol maxIter 0) (fun _ => 0)
          Qs := st.Qs ++
            List.replicate (l.length * plsZeroAppendCount tol maxIter 0) (fun _ => 0)
          Ws := st.Ws ++
            List.replicate (l.length * plsZeroAppendCount tol maxIter 0) (fun _ => 0)
          off := st.off + l.length * R }
  | [], st => by simp
  | c :: l, st => by
    rw [List.foldl_cons, plsComponentStep_zeroRun sqrt h0,
      plsFold_zeroRun sqrt h0 rand maxIter tol l]
    have hc : plsZeroAppendCount tol maxIter 0 +
        l.length * plsZeroAppendCount tol maxIter 0 =
        (l.length + 1) * plsZeroAppendCount tol maxIter 0 := by ring
    have hoff : st.off + R + l.length * R = st.off + (l.length + 1) * R := by ring
    simp only [List.append_assoc, ← List.replicate_add, hc, hoff,
      List.length_cons, List.foldl_cons]

theorem flatten_replicate_zeroRow (m : ℕ) :
    ∀ n, (List.replicate n (List.replicate m (0 : α))).flatten =
      List.replicate (n * m) 0
  | 0 => by simp
  | n + 1 => by
    rw [List.replicate_succ, List.flatten_cons, flatten_replicate_zeroRow m n,
      ← List.replicate_add]
    congr 1
    ring

theorem colVecToDense_zeroVec {m : ℕ} :
    colVecToDense (fun _ : Fin m => (0 : α)) =
      { rows := m, cols := 1, data := List.replicate m 0 } := by
  simp [colVecToDense, List.map_const']

theorem StackDenseMatrices_replicate (n : ℕ) (d : GoDense α) :
    StackDenseMatrices (List.replicate n d) =
      if n = 0 then Except.error "no matrices to stack"
      else Except.ok
        { rows := n * d.rows, cols := d.cols
          data := (List.replicate n d.data).flatten } := by
  cases n with
  | zero => rfl
  | succ n =>
    have hall : ((d :: List.replicate n d).all (fun m => m.cols = d.cols)) = true := by
      rw [List.all_eq_true]
      intro m hm
      rcases List.mem_cons.mp hm with h | h
      · rw [h]
        simp
      · rw [List.eq_of_mem_replicate h]
        simp
    rw [List.replicate_succ]
    simp only [StackDenseMatrices, hall, if_true, if_neg (Nat.succ_ne_zero n)]
    have hrows : ((d :: List.replicate n d).map GoDense.rows).sum = (n + 1) * d.rows := by
      simp [List.map_replicate, List.sum_replicate, smul_eq_mul]
      ring
    have hdata : (d :: List.replicate n d).map GoDense.data =
        List.replicate (n + 1) d.data := by
      simp [List.map_replicate, List.replicate_succ]
    rw [hrows, hdata]

/-- Full characterisation of a `nipalsPLSBody` run: because `u` is zeroed
before the inner loop, every computed vector is zero, the caller's
matrices are deflated by zero outer products, and the stacked outputs are
blocks of zeros — `plsZeroAppendCount tol maxIter 0` blocks per component. -/
theorem nipalsPLSBody_run {R Cx Cy : ℕ} (sqrt : α → α) (h0 : sqrt 0 = 0) (rand : ℕ → α)
    (X : Mat R Cx α) (Y : Mat R Cy α) (ncomp maxIter : ℕ) (tol : α) :
    nipalsPLSBody sqrt rand X Y ncomp maxIter tol =
      ((if ncomp * plsZeroAppendCount tol maxIter 0 = 0 then
          Except.error "no matrices to stack"
        else
          Except.ok
            { T := fun _ _ => 0
              P := { rows := ncomp * plsZeroAppendCount tol maxIter 0 * Cx, cols := 1
                     data := List.replicate (ncomp * plsZeroAppendCount tol maxIter 0 * Cx) 0 }
              Q := { rows := ncomp * plsZeroAppendCount tol maxIter 0 * Cy, cols := 1
                     data := List.replicate (ncomp * plsZeroAppendCount tol maxIter 0 * Cy) 0 }
              W := { rows := ncomp * plsZeroAppendCount tol maxIter 0 * Cx, cols := 1
                     data := List.replicate (ncomp * plsZeroAppendCount tol maxIter 0 * Cx) 0 } }),
       X, Y) := by
  simp only [nipalsPLSBody]
  rw [plsFold_zeroRun sqrt h0 rand maxIter tol (List.finRange ncomp)]
  simp only [List.length_finRange, List.nil_append, foldl_setCol_zeroMat,
    List.map_replicate, colVecToDense_zeroVec, StackDenseMatrices_replicate]
  by_cases hn : ncomp * plsZeroAppendCount tol maxIter 0 = 0
  · simp only [hn, if_pos rfl, if_true]
    rfl
  · simp only [hn, if_false, if_neg hn, flatten_replicate_zeroRow]
    rfl

theorem plsZeroAppendCount_eq_zero (tol : α) (maxIter : ℕ) :
    plsZeroAppendCount tol maxIter 0 = 0 ↔ maxIter = 0 := by
  unfold plsZeroAppendCount
  by_cases ht : 0 < tol
  · rcases Nat.eq_zero_or_pos maxIter with h | h
    · simp [ht, h]
    · simp [ht]
  · simp [ht]

theorem plsZeroAppendCount_eq_one (tol : α) (maxIter : ℕ) (htol : 0 < tol)
    (hiter : 1 ≤ maxIter) : plsZeroAppendCount tol maxIter 0 = 1 := by
  unfold plsZeroAppendCount
  simp [htol]
  omega

/-- With a nonzero row count and a nonzero component count the `NIPALS`
allocations succeed and the wrapper returns the body's result. -/
theorem NIPALS_eq_body {r c : ℕ} (sqrt : α → α) (X : Mat r (c + 1) α) (k : ℕ)
    (hr : r ≠ 0) (hk : k ≠ 0) :
    NIPALS sqrt X k = GoRun.ret (nipalsBody sqrt X k) := by
  rw [NIPALS.eq_def, if_neg (by simp [hr, hk])]

/-- With a zero row count or a zero component count `NIPALS` panics in
`mat.NewDense` before the algorithm body runs. -/
theorem NIPALS_panics_of_zero {r c : ℕ} (sqrt : α → α) (X : Mat r c α) (k : ℕ)
    (h : r = 0 ∨ k = 0) :
    NIPALS sqrt X k = GoRun.panicked "mat: zero length in matrix dimension" := by
  rw [NIPALS.eq_def, if_pos h]

/-- With nonzero dimensions and a nonzero component count the `NipalsPLS`
allocations succeed and the wrapper returns the body's result. -/
theorem NipalsPLS_eq_body {R Cx Cy : ℕ} (sqrt : α → α) (rand : ℕ → α)
    (X : Mat R Cx α) (Y : Mat R Cy α) (ncomp maxIter : ℕ) (tol : α)
    (hR : R ≠ 0) (hn : ncomp ≠ 0) (hx : Cx ≠ 0) (hy : Cy ≠ 0) :
    NipalsPLS sqrt rand X Y ncomp maxIter tol =
      GoRun.ret (nipalsPLSBody sqrt rand X Y ncomp maxIter tol) := by
  rw [NipalsPLS, if_neg (by simp [hR, hn, hx, hy])]

/-! ## Claim theorems -/

/-- Claim C2: invoking an engine fit leaves the caller-supplied matrices
unchanged.  The PCA engine copies `X` into `XRes` and never writes
through the caller's matrix; the PLS engine does deflate the caller's
`X` and `Y` in place, but every deflation subtracts `outer(t, p)` with
`t = 0` (the inner loop runs from the zeroed `u`), so the caller-visible
values are unchanged as well.  On the zero-dimension inputs the
allocations panic before any write, so every run that returns leaves the
matrices untouched. -/
theorem engines_leave_caller_matrices_unchanged {r c R Cx Cy : ℕ}
    (X : Mat r (c + 1) ℝ) (k : ℕ) (rand : ℕ → ℝ) (XP : Mat R Cx ℝ) (YP : Mat R Cy ℝ)
    (ncomp maxIter : ℕ) (tol : ℝ) :
    (∀ res, NIPALS Real.sqrt X k = GoRun.ret res → res.finalX = X) ∧
    (∀ out, NipalsPLS Real.sqrt rand XP YP ncomp maxIter tol = GoRun.ret out →
      out.2.1 = XP ∧ out.2.2 = YP) := by
  constructor
  · intro res h
    by_cases hc : r = 0 ∨ k = 0
    · rw [NIPALS_panics_of_zero Real.sqrt X k hc] at h
      exact absurd h (by simp)
    · push_neg at hc
      rw [NIPALS_eq_body Real.sqrt X k hc.1 hc.2] at h
      have hres : nipalsBody Real.sqrt X k = res := by simpa using h
      rw [← hres]
      rfl
  · intro out h
    by_cases hc : R = 0 ∨ ncomp = 0 ∨ Cx = 0 ∨ Cy = 0
    · rw [NipalsPLS, if_pos hc] at h
      exact absurd h (by simp)
    · push_neg at hc
      rw [NipalsPLS_eq_body Real.sqrt rand XP YP ncomp maxIter tol
        hc.1 hc.2.1 hc.2.2.1 hc.2.2.2] at h
      have hout : nipalsPLSBody Real.sqrt rand XP YP ncomp maxIter tol = out := by
        simpa using h
      rw [← hout, nipalsPLSBody_run Real.sqrt Real.sqrt_zero]
      exact ⟨rfl, rfl⟩

/-- Witness for C2 at a concrete 1×1 input. -/
theorem engines_leave_caller_matrices_unchanged_witness :
    (nipalsBody Real.sqrt ones11 1).finalX = ones11 ∧
    ((nipalsPLSBody Real.sqrt (fun _ => 0) ones11 ones11 1 1 (1 : ℝ)).2.1 = ones11 ∧
     (nipalsPLSBody Real.sqrt (fun _ => 0) ones11 ones11 1 1 (1 : ℝ)).2.2 = ones11) :=
  ⟨(engines_leave_caller_matrices_unchanged ones11 1 (fun _ => 0) ones11 ones11 1 1 1).1
      (nipalsBody Real.sqrt ones11 1)
      (NIPALS_eq_body Real.sqrt ones11 1 (by norm_num) (by norm_num)),
   (engines_leave_caller_matrices_unchanged ones11 1 (fun _ => 0) ones11 ones11 1 1 1).2
      (nipalsPLSBody Real.sqrt (fun _ => 0) ones11 ones11 1 1 1)
      (NipalsPLS_eq_body Real.sqrt (fun _ => 0) ones11 ones11 1 1 1
        (by norm_num) (by norm_num) (by norm_num) (by norm_num))⟩

/-- Claim C7 counterexample: requesting zero components makes
`T := mat.NewDense(rows, numComponents, nil)` panic with
`mat.ErrZeroLength` — the engine never reaches its
`return T, P, Eigenvalues, nil`, contradicting the claim's quantification
over every `numComponents`. -/
theorem NIPALS_zero_components_counterexample :
    NIPALS Real.sqrt ones11 0 =
      GoRun.panicked "mat: zero length in matrix dimension" :=
  NIPALS_panics_of_zero Real.sqrt ones11 0 (Or.inr rfl)

/-- Claim C7 (amended): whenever the `mat.NewDense` allocations succeed —
at least one row, at least one column and `numComponents ≥ 1` — the PCA
engine returns normally and its error value is `nil`: no path of the
algorithm body produces a failure.  With `numComponents = 0` the engine
instead panics in the allocator and never returns. -/
theorem NIPALS_nil_error_unless_allocations_panic {r c : ℕ}
    (X : Mat (r + 1) (c + 1) ℝ) (k : ℕ) :
    (∃ res, NIPALS Real.sqrt X (k + 1) = GoRun.ret res ∧ res.err = none) ∧
    NIPALS Real.sqrt X 0 = GoRun.panicked "mat: zero length in matrix dimension" :=
  ⟨⟨nipalsBody Real.sqrt X (k + 1),
    NIPALS_eq_body Real.sqrt X (k + 1) (Nat.succ_ne_zero r) (Nat.succ_ne_zero k),
    rfl⟩,
   NIPALS_panics_of_zero Real.sqrt X 0 (Or.inr rfl)⟩

/-- Claim C4 (refuted, code bug): the source calls `InitializeScores`
but immediately reassigns `u = mat.NewDense(rowsX, 1, nil)`, so the inner
iteration starts from the zero vector, not from the random one: the fit
is independent of the random stream, and every stacked weight entry is
zero because `w = Xᵀ·u` was computed from `u = 0`. -/
theorem NipalsPLS_random_naught {R Cx Cy : ℕ} (rand rand2 : ℕ → ℝ)
    (X : Mat R Cx ℝ) (Y : Mat R Cy ℝ) (ncomp maxIter : ℕ) (tol : ℝ) :
    NipalsPLS Real.sqrt rand X Y ncomp maxIter tol =
      NipalsPLS Real.sqrt rand2 X Y ncomp maxIter tol ∧
    (∀ out, NipalsPLS Real.sqrt rand X Y ncomp maxIter tol = GoRun.ret out →
      Except.map (fun res => res.W.data) out.1 =
        Except.map (fun res => List.replicate res.W.data.length (0 : ℝ)) out.1) := by
  constructor
  · rfl
  · intro out h
    by_cases hc : R = 0 ∨ ncomp = 0 ∨ Cx = 0 ∨ Cy = 0
    · rw [NipalsPLS, if_pos hc] at h
      exact absurd h (by simp)
    · push_neg at hc
      rw [NipalsPLS_eq_body Real.sqrt rand X Y ncomp maxIter tol
        hc.1 hc.2.1 hc.2.2.1 hc.2.2.2] at h
      have hout : nipalsPLSBody Real.sqrt rand X Y ncomp maxIter tol = out := by
        simpa using h
      rw [← hout, nipalsPLSBody_run Real.sqrt Real.sqrt_zero]
      by_cases hn : ncomp * plsZeroAppendCount tol maxIter 0 = 0 <;>
        simp [hn, Except.map]

/-- Witness for C4 at a concrete 1×1 one-component fit. -/
theorem NipalsPLS_random_naught_witness :
    Except.map (fun res => res.W.data)
        (nipalsPLSBody Real.sqrt (fun _ => 0) ones11 ones11 1 1 (1 : ℝ)).1 =
      Except.map (fun res => List.replicate res.W.data.length (0 : ℝ))
        (nipalsPLSBody Real.sqrt (fun _ => 0) ones11 ones11 1 1 (1 : ℝ)).1 :=
  (NipalsPLS_random_naught (fun _ => 0) (fun _ => 1) ones11 ones11 1 1 1).2
    (nipalsPLSBody Real.sqrt (fun _ => 0) ones11 ones11 1 1 1)
    (NipalsPLS_eq_body Real.sqrt (fun _ => 0) ones11 ones11 1 1 1
      (by norm_num) (by norm_num) (by norm_num) (by norm_num))

/-- Claim C8 counterexample: a zero-component fit does not fail with the
stacking error — `T := mat.NewDense(rowsX, ncomp, nil)` panics with
`mat.ErrZeroLength` before any accumulator list exists, so the engine
never returns at all. -/
theorem NipalsPLS_zero_components_counterexample :
    NipalsPLS Real.sqrt (fun _ => 0) ones11 ones11 0 5 (1 : ℝ) =
      GoRun.panicked "mat: zero length in matrix dimension" := by
  rw [NipalsPLS, if_pos (Or.inr (Or.inl rfl))]

/-- Claim C8 (amended): on inputs whose allocations succeed (nonzero
dimensions, `ncomp ≥ 1`) the fit returns the explicit
`errors.New("no matrices to stack")` error — no result bundle, the
caller's matrices unchanged — exactly when `maxIter = 0`, the one case
that leaves the accumulated loading/weight lists empty; a column-count
mismatch never occurs since every appended block is a single-column
vector.  A zero-component fit never reaches the stacking code: the
scores-matrix allocation panics first. -/
theorem NipalsPLS_error_iff {R Cx Cy : ℕ} (rand : ℕ → ℝ)
    (X : Mat (R + 1) (Cx + 1) ℝ) (Y : Mat (R + 1) (Cy + 1) ℝ)
    (ncomp maxIter : ℕ) (tol : ℝ) :
    (NipalsPLS Real.sqrt rand X Y (ncomp + 1) maxIter tol =
        GoRun.ret (Except.error "no matrices to stack", X, Y) ↔ maxIter = 0) ∧
    NipalsPLS Real.sqrt rand X Y 0 maxIter tol =
      GoRun.panicked "mat: zero length in matrix dimension" := by
  constructor
  · rw [NipalsPLS_eq_body Real.sqrt rand X Y (ncomp + 1) maxIter tol
      (Nat.succ_ne_zero R) (Nat.succ_ne_zero ncomp) (Nat.succ_ne_zero Cx)
      (Nat.succ_ne_zero Cy), nipalsPLSBody_run Real.sqrt Real.sqrt_zero]
    constructor
    · intro h
      by_cases hn : (ncomp + 1) * plsZeroAppendCount tol maxIter 0 = 0
      · rcases Nat.mul_eq_zero.mp hn with h0 | h0
        · exact absurd h0 (Nat.succ_ne_zero ncomp)
        · exact (plsZeroAppendCount_eq_zero tol maxIter).mp h0
      · rw [if_neg hn] at h
        exact absurd h (by simp)
    · intro h
      subst h
      have h0 : plsZeroAppendCount tol 0 (0 : ℕ) = 0 :=
        (plsZeroAppendCount_eq_zero tol 0).mpr rfl
      rw [if_pos (by rw [h0, Nat.mul_zero])]
  · rw [NipalsPLS, if_pos (Or.inr (Or.inl rfl))]

/-- Claim C3 counterexample: with caller-supplied `tol = 0` (the
convergence test `normDiff(t, tOld) < tol` then never fires) and
`maxIter = 2`, a one-component fit on 1×1 matrices records TWO blocks in
the stacked `P` — one per inner-loop iteration — where the claim predicts
exactly one block (`1·Cx = 1` row). -/
theorem NipalsPLS_blocks_counterexample :
    NipalsPLS Real.sqrt (fun _ => 0) ones11 ones11 1 2 (0 : ℝ) =
      GoRun.ret (nipalsPLSBody Real.sqrt (fun _ => 0) ones11 ones11 1 2 (0 : ℝ)) ∧
    Except.map (fun res => res.P.rows)
      (nipalsPLSBody Real.sqrt (fun _ => 0) ones11 ones11 1 2 (0 : ℝ)).1 =
      Except.ok 2 ∧ (2 : ℕ) ≠ 1 * 1 := by
  refine ⟨NipalsPLS_eq_body Real.sqrt (fun _ => 0) ones11 ones11 1 2 0
    (by norm_num) (by norm_num) (by norm_num) (by norm_num), ?_, ?_⟩
  · rw [nipalsPLSBody_run Real.sqrt Real.sqrt_zero]
    norm_num [plsZeroAppendCount, Except.map]
  · decide

/-- Claim C3 (amended): provided the caller passes a positive tolerance
and `maxIter ≥ 1`, each component's inner loop reaches the append
statements exactly once, so the stacked `P`, `Q`, `W` hold exactly one
block per extracted component, and the blocks hold the final
per-component `p`, `q`, `w` values (all zero, as the loop runs from the
zeroed `u`).  With `tol ≤ 0` and `maxIter ≥ 2` there is one block per
inner-loop iteration instead (see the counterexample). -/
theorem NipalsPLS_one_block_per_component {R Cx Cy : ℕ} (rand : ℕ → ℝ)
    (X : Mat R Cx ℝ) (Y : Mat R Cy ℝ) (ncomp maxIter : ℕ) (tol : ℝ)
    (htol : 0 < tol) (hiter : 1 ≤ maxIter)
    (out : Except String (PLSResult ℝ R ncomp) × Mat R Cx ℝ × Mat R Cy ℝ)
    (hout : NipalsPLS Real.sqrt rand X Y ncomp maxIter tol = GoRun.ret out)
    (res : PLSResult ℝ R ncomp) (hres : out.1 = Except.ok res) :
    res.P.rows = ncomp * Cx ∧ res.Q.rows = ncomp * Cy ∧ res.W.rows = ncomp * Cx ∧
    res.P.data = List.replicate (ncomp * Cx) 0 ∧
    res.Q.data = List.replicate (ncomp * Cy) 0 ∧
    res.W.data = List.replicate (ncomp * Cx) 0 := by
  by_cases hpanic : R = 0 ∨ ncomp = 0 ∨ Cx = 0 ∨ Cy = 0
  · rw [NipalsPLS, if_pos hpanic] at hout
    exact absurd hout (by simp)
  · push_neg at hpanic
    rw [NipalsPLS_eq_body Real.sqrt rand X Y ncomp maxIter tol
      hpanic.1 hpanic.2.1 hpanic.2.2.1 hpanic.2.2.2] at hout
    have hbo : nipalsPLSBody Real.sqrt rand X Y ncomp maxIter tol = out := by
      simpa using hout
    rw [← hbo, nipalsPLSBody_run Real.sqrt Real.sqrt_zero,
      plsZeroAppendCount_eq_one tol maxIter htol hiter] at hres
    by_cases hc : ncomp = 0
    · rw [if_pos (by rw [hc, Nat.zero_mul])] at hres
      exact absurd hres (by simp)
    · rw [if_neg (by simpa using hc)] at hres
      have := (Except.ok.injEq _ _).mp hres
      rw [← this]
      simp [Nat.mul_one]

/-- Witness for the amended C3 at a concrete one-component fit. -/
theorem NipalsPLS_one_block_per_component_witness :
    ({ rows := 1, cols := 1, data := [0] } : GoDense ℝ).rows = 1 * 1 ∧
    ({ rows := 1, cols := 1, data := [0] } : GoDense ℝ).rows = 1 * 1 ∧
    ({ rows := 1, cols := 1, data := [0] } : GoDense ℝ).rows = 1 * 1 ∧
    ({ rows := 1, cols := 1, data := [0] } : GoDense ℝ).data = List.replicate (1 * 1) 0 ∧
    ({ rows := 1, cols := 1, data := [0] } : GoDense ℝ).data = List.replicate (1 * 1) 0 ∧
    ({ rows := 1, cols := 1, data := [0] } : GoDense ℝ).data = List.replicate (1 * 1) 0 := by
  have h := NipalsPLS_one_block_per_component (fun _ => 0) ones11 ones11 1 1 1
    (by norm_num) (by norm_num)
    (nipalsPLSBody Real.sqrt (fun _ => 0) ones11 ones11 1 1 1)
    (NipalsPLS_eq_body Real.sqrt (fun _ => 0) ones11 ones11 1 1 1
      (by norm_num) (by norm_num) (by norm_num) (by norm_num))
    { T := fun _ _ => 0
      P := { rows := 1, cols := 1, data := [0] }
      Q := { rows := 1, cols := 1, data := [0] }
      W := { rows := 1, cols := 1, data := [0] } }
    (by rw [nipalsPLSBody_run Real.sqrt Real.sqrt_zero]; norm_num [plsZeroAppendCount])
  exact h

/-- Claim C6: `normalize` is a no-op exactly on zero-norm vectors and
otherwise rescales to unit Euclidean norm; in the PCA inner loop a
zero-norm loading terminates the iteration before any division, with the
unnormalised (zero) loading as the final `p`. -/
theorem normalize_unit_norm_and_zero_guard :
    (∀ (n : ℕ) (v : Vec n ℝ), norm2 Real.sqrt v = 0 → normalizeV Real.sqrt v = v) ∧
    (∀ (n : ℕ) (v : Vec n ℝ), norm2 Real.sqrt v ≠ 0 →
      norm2 Real.sqrt (normalizeV Real.sqrt v) = 1) ∧
    (∀ (r c : ℕ) (X : Mat r c ℝ) (t : Vec r ℝ) (pPrev : Vec c ℝ) (fuel : ℕ),
      norm2 Real.sqrt (mulMV (transposeM X) t) = 0 →
      pcaLoop Real.sqrt X (fuel + 1) t pPrev = (t, mulMV (transposeM X) t)) := by
  refine ⟨?_, ?_, ?_⟩
  · intro n v h
    simp [normalizeV, h]
  · intro n v h
    have hS : (0 : ℝ) ≤ ∑ i, v i * v i :=
      Finset.sum_nonneg fun i _ => mul_self_nonneg (v i)
    have hS0 : (∑ i, v i * v i) ≠ 0 := by
      intro h0
      exact h (by simp [norm2, h0])
    have hSpos : (0 : ℝ) < ∑ i, v i * v i := lt_of_le_of_ne hS (Ne.symm hS0)
    have hnorm : norm2 Real.sqrt v = Real.sqrt (∑ i, v i * v i) := rfl
    rw [normalizeV, if_pos h]
    show Real.sqrt (∑ i, (1 / norm2 Real.sqrt v * v i) * (1 / norm2 Real.sqrt v * v i)) = 1
    have hsum : (∑ i, (1 / norm2 Real.sqrt v * v i) * (1 / norm2 Real.sqrt v * v i)) =
        (1 / norm2 Real.sqrt v) * (1 / norm2 Real.sqrt v) * ∑ i, v i * v i := by
      rw [Finset.mul_sum]
      exact Finset.sum_congr rfl fun i _ => by ring
    rw [hsum, hnorm, div_mul_div_comm, one_mul,
      Real.mul_self_sqrt hS]
    rw [div_mul_cancel₀ 1 hS0]
    exact Real.sqrt_one
  · intro r c X t pPrev fuel h
    rw [pcaLoop]
    simp only [if_pos h]

/-- Witness for C6 at concrete vectors ([0,0] and [3,4]) and a concrete
zero matrix for the inner-loop guard. -/
theorem normalize_unit_norm_and_zero_guard_witness :
    normalizeV Real.sqrt ![(0 : ℝ), 0] = ![(0 : ℝ), 0] ∧
    norm2 Real.sqrt (normalizeV Real.sqrt ![(3 : ℝ), 4]) = 1 ∧
    pcaLoop Real.sqrt zeros11 1 (fun _ => 1) (fun _ => 0) =
      ((fun _ => 1), mulMV (transposeM zeros11) (fun _ => 1)) := by
  refine ⟨?_, ?_, ?_⟩
  · exact normalize_unit_norm_and_zero_guard.1 2 ![0, 0]
      (by norm_num [norm2, Fin.sum_univ_two])
  · refine normalize_unit_norm_and_zero_guard.2.1 2 ![3, 4] ?_
    have h25 : (∑ i, (![(3 : ℝ), 4]) i * (![(3 : ℝ), 4]) i) = 25 := by
      norm_num [Fin.sum_univ_two]
    rw [norm2, h25]
    rw [show (25 : ℝ) = 5 ^ 2 by norm_num, Real.sqrt_sq (by norm_num)]
    norm_num
  · exact normalize_unit_norm_and_zero_guard.2.2 1 1 zeros11 (fun _ => 1) (fun _ => 0) 0
      (by norm_num [norm2, mulMV, transposeM, zeros11, Fin.sum_univ_one])

/-- Claim C9: on any matrix with at least one row, mean-centering
followed by the column mean yields the zero vector exactly (in the exact
arithmetic of the model), and the returned means are the column means of
the input. -/
theorem MeanCenter_then_colMean_zero {r c : ℕ} (X : Mat r c ℝ) (h : 1 ≤ r) :
    colMean (MeanCenter X).1 = (fun _ => 0) ∧ (MeanCenter X).2 = colMean X := by
  refine ⟨?_, rfl⟩
  funext j
  have hr : (r : ℝ) ≠ 0 := Nat.cast_ne_zero.mpr (by omega)
  simp only [colMean, MeanCenter]
  rw [Finset.sum_sub_distrib, Finset.sum_const, Finset.card_univ, Fintype.card_fin,
    nsmul_eq_mul]
  have hmul : (r : ℝ) * ((∑ i, X i j) / (r : ℝ)) = ∑ i, X i j := by
    field_simp
  rw [hmul, sub_self, zero_div]

/-- Witness for C9 at a concrete 1×1 matrix. -/
theorem MeanCenter_then_colMean_zero_witness :
    colMean (MeanCenter ones11).1 = (fun _ => 0) ∧
    (MeanCenter ones11).2 = colMean ones11 :=
  MeanCenter_then_colMean_zero ones11 (by norm_num)

/-- Claim C5: conjuncts 1 and 2 show a PCA inner-loop step (with nonzero
loading norm) halts exactly when the signed difference of score norms
`‖tNew‖ - ‖t‖` is below the fixed `epsilon = 1e-6`, returning the current
`t`; conjunct 3 shows the PLS inner loop halts before exhausting
`maxIter` exactly when the Euclidean norm of the difference between the
score vectors of consecutive iterations (both the zero vector, since the
loop runs from the zeroed `u`) is below the caller-supplied tolerance;
conjunct 4 separates the two criteria at a concrete vector pair, so
neither subsumes the other. -/
theorem convergence_criteria_distinct :
    (∀ (r c : ℕ) (X : Mat r c ℝ) (t : Vec r ℝ) (pPrev : Vec c ℝ) (fuel : ℕ),
      norm2 Real.sqrt (mulMV (transposeM X) t) ≠ 0 →
      norm2 Real.sqrt
          (mulMV X (fun j => 1 / norm2 Real.sqrt (mulMV (transposeM X) t) *
            mulMV (transposeM X) t j)) -
          norm2 Real.sqrt t < pcaEpsilon →
      pcaLoop Real.sqrt X (fuel + 1) t pPrev =
        (t, fun j => 1 / norm2 Real.sqrt (mulMV (transposeM X) t) *
          mulMV (transposeM X) t j)) ∧
    (∀ (r c : ℕ) (X : Mat r c ℝ) (t : Vec r ℝ) (pPrev : Vec c ℝ) (fuel : ℕ),
      norm2 Real.sqrt (mulMV (transposeM X) t) ≠ 0 →
      ¬ (norm2 Real.sqrt
          (mulMV X (fun j => 1 / norm2 Real.sqrt (mulMV (transposeM X) t) *
            mulMV (transposeM X) t j)) -
          norm2 Real.sqrt t < pcaEpsilon) →
      pcaLoop Real.sqrt X (fuel + 1) t pPrev =
        pcaLoop Real.sqrt X fuel
          (mulMV X (fun j => 1 / norm2 Real.sqrt (mulMV (transposeM X) t) *
            mulMV (transposeM X) t j))
          (fun j => 1 / norm2 Real.sqrt (mulMV (transposeM X) t) *
            mulMV (transposeM X) t j)) ∧
    (∀ (R Cx Cy : ℕ) (X : Mat R Cx ℝ) (Y : Mat R Cy ℝ) (tol : ℝ) (maxIter : ℕ),
      2 ≤ maxIter →
      ((plsInnerLoop Real.sqrt X Y tol maxIter 0 plsStartState).appends < maxIter ↔
        normDiff Real.sqrt ((plsInnerLoop Real.sqrt X Y tol 2 0 plsStartState).t)
          ((plsInnerLoop Real.sqrt X Y tol 1 0 plsStartState).t) < tol)) ∧
    ((norm2 Real.sqrt ![(0 : ℝ), 1] - norm2 Real.sqrt ![(1 : ℝ), 0] < pcaEpsilon) ∧
      ¬ (normDiff Real.sqrt ![(0 : ℝ), 1] ![(1 : ℝ), 0] < pcaEpsilon)) := by
  refine ⟨?_, ?_, ?_, ?_, ?_⟩
  · intro r c X t pPrev fuel hp hc
    rw [pcaLoop]
    simp only []
    rw [if_neg hp, if_pos hc]
  · intro r c X t pPrev fuel hp hnc
    rw [pcaLoop]
    simp only []
    rw [if_neg hp, if_neg hnc]
  · intro R Cx Cy X Y tol maxIter hml
    have hz := plsInnerLoop_zeroState Real.sqrt Real.sqrt_zero X Y tol
    simp only [plsStartState]
    rw [hz maxIter 0 [] 0, hz 2 0 [] 0, hz 1 0 [] 0]
    simp only [Nat.zero_add]
    rw [normDiff_self Real.sqrt Real.sqrt_zero]
    by_cases ht : 0 < tol
    · rw [plsZeroAppendCount_eq_one tol maxIter ht (by omega)]
      constructor
      · intro _
        exact ht
      · intro _
        omega
    · have : plsZeroAppendCount tol maxIter 0 = maxIter := by
        simp [plsZeroAppendCount, ht]
      rw [this]
      constructor
      · intro h
        exact absurd h (lt_irrefl maxIter)
      · intro h
        exact absurd h ht
  · have h1 : norm2 Real.sqrt ![(0 : ℝ), 1] = 1 := by
      rw [norm2, Fin.sum_univ_two]
      norm_num
    have h2 : norm2 Real.sqrt ![(1 : ℝ), 0] = 1 := by
      rw [norm2, Fin.sum_univ_two]
      norm_num
    rw [h1, h2, pcaEpsilon]
    norm_num
  · have h3 : normDiff Real.sqrt ![(0 : ℝ), 1] ![(1 : ℝ), 0] = Real.sqrt 2 := by
      rw [normDiff, norm2, Fin.sum_univ_two]
      norm_num
    rw [h3, pcaEpsilon]
    intro hlt
    have hge : (1 : ℝ) ≤ Real.sqrt 2 := by
      rw [show (1 : ℝ) = Real.sqrt 1 from Real.sqrt_one.symm]
      exact Real.sqrt_le_sqrt (by norm_num)
    linarith

/-- Witness for C5 at concrete 1×1 inputs: the converging step on the
all-ones matrix, the non-converging step on the all-twos matrix, and the
PLS stop-iff characterisation at `tol = 1`, `maxIter = 2`. -/
theorem convergence_criteria_distinct_witness :
    (pcaLoop Real.sqrt ones11 1 (fun _ => 1) (fun _ => 0) =
      ((fun _ => 1), fun j => 1 / norm2 Real.sqrt (mulMV (transposeM ones11) (fun _ => 1)) *
        mulMV (transposeM ones11) (fun _ => 1) j)) ∧
    (pcaLoop Real.sqrt twos11 1 (fun _ => 1) (fun _ => 0) =
      pcaLoop Real.sqrt twos11 0
        (mulMV twos11 (fun j => 1 / norm2 Real.sqrt (mulMV (transposeM twos11) (fun _ => 1)) *
          mulMV (transposeM twos11) (fun _ => 1) j))
        (fun j => 1 / norm2 Real.sqrt (mulMV (transposeM twos11) (fun _ => 1)) *
          mulMV (transposeM twos11) (fun _ => 1) j)) ∧
    ((plsInnerLoop Real.sqrt ones11 ones11 (1 : ℝ) 2 0 plsStartState).appends < 2 ↔
      normDiff Real.sqrt ((plsInnerLoop Real.sqrt ones11 ones11 (1 : ℝ) 2 0 plsStartState).t)
        ((plsInnerLoop Real.sqrt ones11 ones11 (1 : ℝ) 1 0 plsStartState).t) < 1) := by
  have hones : mulMV (transposeM ones11) (fun _ => 1) = fun _ => 1 := by
    funext j
    simp [mulMV, transposeM, ones11, Fin.sum_univ_one]
  have honesN : norm2 Real.sqrt (mulMV (transposeM ones11) (fun _ => 1)) = 1 := by
    rw [hones, norm2, Fin.sum_univ_one]
    norm_num
  have htwos : mulMV (transposeM twos11) (fun _ => 1) = fun _ => 2 := by
    funext j
    simp [mulMV, transposeM, twos11, Fin.sum_univ_one]
  have htwosN : norm2 Real.sqrt (mulMV (transposeM twos11) (fun _ => 1)) = 2 := by
    rw [htwos, norm2, Fin.sum_univ_one]
    rw [show (2 : ℝ) * 2 = 2 ^ 2 by norm_num, Real.sqrt_sq (by norm_num)]
  refine ⟨?_, ?_, ?_⟩
  · refine convergence_criteria_distinct.1 1 1 ones11 (fun _ => 1) (fun _ => 0) 0 ?_ ?_
    · rw [honesN]
      norm_num
    · rw [honesN]
      have : (fun j => 1 / (1 : ℝ) * mulMV (transposeM ones11) (fun _ => 1) j) =
          (fun _ => (1 : ℝ)) := by
        funext j
        rw [hones]
        norm_num
      rw [this]
      have hX1 : mulMV ones11 (fun _ => (1 : ℝ)) = fun _ => 1 := by
        funext i
        simp [mulMV, ones11, Fin.sum_univ_one]
      rw [hX1]
      norm_num [norm2, Fin.sum_univ_one, pcaEpsilon]
  · refine convergence_criteria_distinct.2.1 1 1 twos11 (fun _ => 1) (fun _ => 0) 0 ?_ ?_
    · rw [htwosN]
      norm_num
    · rw [htwosN]
      have : (fun j => 1 / (2 : ℝ) * mulMV (transposeM twos11) (fun _ => 1) j) =
          (fun _ => (1 : ℝ)) := by
        funext j
        rw [htwos]
        norm_num
      rw [this]
      have hX1 : mulMV twos11 (fun _ => (1 : ℝ)) = fun _ => 2 := by
        funext i
        simp [mulMV, twos11, Fin.sum_univ_one]
      rw [hX1]
      have hn2 : norm2 Real.sqrt (fun _ : Fin 1 => (2 : ℝ)) = 2 := by
        rw [norm2, Fin.sum_univ_one]
        rw [show (2 : ℝ) * 2 = 2 ^ 2 by norm_num, Real.sqrt_sq (by norm_num)]
      have hn1 : norm2 Real.sqrt (fun _ : Fin 1 => (1 : ℝ)) = 1 := by
        rw [norm2, Fin.sum_univ_one]
        norm_num
      rw [hn2, hn1, pcaEpsilon]
      norm_num
  · exact convergence_criteria_distinct.2.2.1 1 1 1 ones11 ones11 1 2 (by norm_num)

theorem flatten_getElem_rect (cols : ℕ) :
    ∀ (L : List (List ℚ)), (∀ row ∈ L, row.length = cols) → ∀ (i j : ℕ), j < cols →
      L.flatten[i * cols + j]? = L[i]?.bind (fun row => row[j]?)
  | [], _, i, j, _ => by simp
  | row :: rest, hrect, i, j, hj => by
    have hrow : row.length = cols := hrect row (List.mem_cons_self _ _)
    cases i with
    | zero =>
      rw [List.flatten_cons, List.getElem?_append,
        if_pos (by rw [hrow]; omega)]
      simp
    | succ i =>
      have hcle : cols ≤ (i + 1) * cols := by
        rw [Nat.succ_mul]
        omega
      rw [List.flatten_cons, List.getElem?_append,
        if_neg (by rw [hrow]; omega)]
      have harith : (i + 1) * cols + j - row.length = i * cols + j := by
        rw [hrow, Nat.succ_mul]
        omega
      rw [harith,
        flatten_getElem_rect cols rest
          (fun r hr => hrect r (List.mem_cons_of_mem _ hr)) i j hj]
      simp

/-- Claim C10 counterexample: on the empty slice the source executes
`mat.NewDense(0, 0, nil)`, which panics with `mat.ErrZeroLength` — gonum
rejects zero dimensions — so `SliceToDense` never returns the 0×0 matrix
the claim asserts. -/
theorem SliceToDense_empty_counterexample :
    SliceToDense ([] : List (List ℚ)) =
      GoRun.panicked "mat: zero length in matrix dimension" := rfl

/-- Claim C10 (amended): on an empty slice or one whose first row is
empty, `SliceToDense` panics in `mat.NewDense(0, 0, nil)` rather than
returning a matrix; on a (non-degenerate) input with rows of unequal
lengths it returns `nil` (here `none`) rather than an error value or a
matrix; and on every rectangular non-empty input it returns the
`rows×cols` matrix whose row-major backing holds the same entries. -/
theorem SliceToDense_cases :
    (∀ d : List (List ℚ), (d = [] ∨ ∃ tl, d = [] :: tl) →
      SliceToDense d = GoRun.panicked "mat: zero length in matrix dimension") ∧
    (∀ d : List (List ℚ), d ≠ [] → (d.headD []).length ≠ 0 →
      ¬ (∀ row ∈ d, row.length = (d.headD []).length) →
      SliceToDense d = GoRun.ret none) ∧
    (∀ d : List (List ℚ), d ≠ [] → (d.headD []).length ≠ 0 →
      (∀ row ∈ d, row.length = (d.headD []).length) →
      SliceToDense d = GoRun.ret
        (some { rows := d.length, cols := (d.headD []).length, data := d.flatten }) ∧
      ∀ i j : ℕ, j < (d.headD []).length →
        d.flatten[i * (d.headD []).length + j]? =
          d[i]?.bind (fun row => row[j]?)) := by
  refine ⟨?_, ?_, ?_⟩
  · intro d hd
    rcases hd with h | ⟨tl, h⟩ <;> subst h <;> simp [SliceToDense]
  · intro d hne hhead hbad
    have hlen : d.length ≠ 0 := fun h => hne (List.length_eq_zero.mp h)
    rw [SliceToDense, if_neg (by push_neg; exact ⟨hlen, hhead⟩)]
    simp only []
    rw [if_neg]
    rw [List.all_eq_true]
    intro hall
    exact hbad fun row hr => by simpa using hall row hr
  · intro d hne hhead hrect
    have hlen : d.length ≠ 0 := fun h => hne (List.length_eq_zero.mp h)
    constructor
    · rw [SliceToDense, if_neg (by push_neg; exact ⟨hlen, hhead⟩)]
      simp only []
      rw [if_pos]
      rw [List.all_eq_true]
      intro row hr
      simpa using hrect row hr
    · intro i j hj
      exact flatten_getElem_rect (d.headD []).length d hrect i j hj

/-- Witness for the amended C10 at concrete inputs: a slice whose first
row is empty, a ragged slice, and the rectangular slice `[[1,2],[3,4]]`. -/
theorem SliceToDense_cases_witness :
    SliceToDense ([[]] : List (List ℚ)) =
      GoRun.panicked "mat: zero length in matrix dimension" ∧
    SliceToDense ([[1], [2, 2]] : List (List ℚ)) = GoRun.ret none ∧
    (SliceToDense ([[1, 2], [3, 4]] : List (List ℚ)) =
        GoRun.ret (some { rows := 2, cols := 2, data := [1, 2, 3, 4] }) ∧
      ([[1, 2], [3, 4]] : List (List ℚ)).flatten[1 * 2 + 0]? =
        ([[1, 2], [3, 4]] : List (List ℚ))[1]?.bind (fun row => row[0]?)) := by
  refine ⟨?_, ?_, ?_, ?_⟩
  · exact SliceToDense_cases.1 [[]] (Or.inr ⟨[], rfl⟩)
  · exact SliceToDense_cases.2.1 [[1], [2, 2]] (by decide) (by decide) (by decide)
  · exact (SliceToDense_cases.2.2 [[1, 2], [3, 4]] (by decide) (by decide)
      (by decide)).1
  · exact (SliceToDense_cases.2.2 [[1, 2], [3, 4]] (by decide) (by decide)
      (by decide)).2 1 0 (by decide)

/-! ## Tracing the PCA inner loop on a concrete matrix

Throughout the inner loop every score iterate is a positive scalar
multiple of a rational vector: `t = v / √q` with `v` rational and `q` a
rational norm square.  One loop step maps `v / √q` to `(X·Xᵀ·v) / √s`
where `s = ‖Xᵀ·v‖²`, so the whole trace can be carried out in rational
arithmetic plus rational bounds on the square roots appearing in the
convergence test. -/

theorem mulMV_div_sqrt {r c : ℕ} (M : Mat r c ℝ) (v : Vec c ℝ) (w : Vec r ℝ)
    (q : ℝ) (hw : mulMV M v = w) :
    mulMV M (fun i => v i / Real.sqrt q) = fun j => w j / Real.sqrt q := by
  funext j
  have hj := congrFun hw j
  simp only [mulMV] at hj ⊢
  rw [← hj, Finset.sum_div]
  exact Finset.sum_congr rfl fun i _ => (mul_div_assoc _ _ _).symm

theorem norm2_div_sqrt {n : ℕ} (v : Vec n ℝ) (q s : ℝ) (hq : 0 < q) (hs : 0 ≤ s)
    (hsum : (∑ i, v i * v i) = s) :
    norm2 Real.sqrt (fun i => v i / Real.sqrt q) = Real.sqrt s / Real.sqrt q := by
  rw [norm2]
  have hterm : ∀ i : Fin n, (v i / Real.sqrt q) * (v i / Real.sqrt q) =
      (v i * v i) / q := fun i => by
    rw [div_mul_div_comm, Real.mul_self_sqrt hq.le]
  rw [Finset.sum_congr rfl fun i _ => hterm i, ← Finset.sum_div, hsum,
    Real.sqrt_div hs q]

theorem sqrt_div_lb (a b l : ℝ) (hb : 0 < b) (hl : 0 ≤ l) (h : l * l * b ≤ a) :
    l ≤ Real.sqrt a / Real.sqrt b := by
  have h1 : l * l ≤ a / b := (le_div_iff hb).mpr h
  have ha : 0 ≤ a := le_trans (by positivity) h
  calc l = Real.sqrt (l * l) := (Real.sqrt_mul_self hl).symm
    _ ≤ Real.sqrt (a / b) := Real.sqrt_le_sqrt h1
    _ = Real.sqrt a / Real.sqrt b := Real.sqrt_div ha b

theorem sqrt_div_ub (a b u : ℝ) (hb : 0 < b) (ha : 0 ≤ a) (hu : 0 ≤ u)
    (h : a ≤ u * u * b) : Real.sqrt a / Real.sqrt b ≤ u := by
  have h1 : a / b ≤ u * u := (div_le_iff hb).mpr h
  calc Real.sqrt a / Real.sqrt b = Real.sqrt (a / b) := (Real.sqrt_div ha b).symm
    _ ≤ Real.sqrt (u * u) := Real.sqrt_le_sqrt h1
    _ = u := Real.sqrt_mul_self hu

/-- Certify non-convergence `¬ (‖tNew‖ - ‖t‖ < ε)` from rational bounds:
`la` under-approximates `‖tNew‖ = √nN/√s` and `ub` over-approximates
`‖t‖ = √n/√q`, with a gap of at least `ε` between them. -/
theorem no_conv_of_bounds (nN s n q la ub : ℝ) (hs : 0 < s) (hq : 0 < q)
    (hla : 0 ≤ la) (hub : 0 ≤ ub) (hn : 0 ≤ n)
    (h1 : la * la * s ≤ nN) (h2 : n ≤ ub * ub * q)
    (hgap : pcaEpsilon ≤ la - ub) :
    ¬ (Real.sqrt nN / Real.sqrt s - Real.sqrt n / Real.sqrt q < pcaEpsilon) := by
  have hA := sqrt_div_lb nN s la hs hla h1
  have hB := sqrt_div_ub n q ub hq hn hub h2
  intro hlt
  linarith

/-- Certify convergence `‖tNew‖ - ‖t‖ < ε` from rational bounds:
`ua` over-approximates `‖tNew‖` and `lb` under-approximates `‖t‖`, their
difference staying below `ε`. -/
theorem conv_of_bounds (nN s n q ua lb : ℝ) (hs : 0 < s) (hq : 0 < q)
    (hua : 0 ≤ ua) (hlb : 0 ≤ lb) (hnN : 0 ≤ nN)
    (h1 : nN ≤ ua * ua * s) (h2 : lb * lb * q ≤ n)
    (hgap : ua - lb < pcaEpsilon) :
    Real.sqrt nN / Real.sqrt s - Real.sqrt n / Real.sqrt q < pcaEpsilon := by
  have hA := sqrt_div_ub nN s ua hs hnN hua h1
  have hB := sqrt_div_lb n q lb hq hlb h2
  linarith

/-- One non-converging PCA inner-loop step in the scaled representation:
from `t = v/√q` the loop computes `p = w/√s` (where `w = Xᵀ·v`,
`s = ‖w‖²`) and `tNew = vN/√s` (where `vN = X·w`), the convergence test
fails, and the loop continues from `(tNew, p)`. -/
theorem pcaLoop_step_cont {r c : ℕ} (X : Mat r c ℝ) (fuel : ℕ)
    (v : Vec r ℝ) (vN : Vec r ℝ) (w : Vec c ℝ) (q s n nN : ℝ) (pPrev : Vec c ℝ)
    (hq : 0 < q) (hs : 0 < s)
    (hw : mulMV (transposeM X) v = w)
    (hvN : mulMV X w = vN)
    (hsval : (∑ j, w j * w j) = s)
    (hn : (∑ i, v i * v i) = n)
    (hnN : (∑ i, vN i * vN i) = nN)
    (hnc : ¬ (Real.sqrt nN / Real.sqrt s - Real.sqrt n / Real.sqrt q < pcaEpsilon)) :
    pcaLoop Real.sqrt X (fuel + 1) (fun i => v i / Real.sqrt q) pPrev =
      pcaLoop Real.sqrt X fuel (fun i => vN i / Real.sqrt s)
        (fun j => w j / Real.sqrt s) := by
  have hq' : Real.sqrt q ≠ 0 := ne_of_gt (Real.sqrt_pos.mpr hq)
  have hs' : Real.sqrt s ≠ 0 := ne_of_gt (Real.sqrt_pos.mpr hs)
  have hpUn := mulMV_div_sqrt (transposeM X) v w q hw
  have hpNorm := norm2_div_sqrt w q s hq hs.le hsval
  have hp : (fun j => 1 / (Real.sqrt s / Real.sqrt q) * (w j / Real.sqrt q)) =
      fun j => w j / Real.sqrt s := by
    funext j
    rw [one_div_div]
    field_simp
    ring
  have htNew := mulMV_div_sqrt X w vN s hvN
  have hnormN := norm2_div_sqrt vN s nN hs
    (by rw [← hnN]; exact Finset.sum_nonneg fun i _ => mul_self_nonneg _) hnN
  have hnormt := norm2_div_sqrt v q n hq
    (by rw [← hn]; exact Finset.sum_nonneg fun i _ => mul_self_nonneg _) hn
  rw [pcaLoop]
  simp only []
  rw [hpUn, hpNorm, if_neg (div_ne_zero hs' hq'), hp, htNew, hnormN, hnormt,
    if_neg hnc]

/-- The converging (final) PCA inner-loop step in the scaled
representation: the convergence test passes and the loop returns the
incoming `t = v/√q` together with the freshly normalised `p = w/√s`. -/
theorem pcaLoop_step_break {r c : ℕ} (X : Mat r c ℝ) (fuel : ℕ)
    (v : Vec r ℝ) (vN : Vec r ℝ) (w : Vec c ℝ) (q s n nN : ℝ) (pPrev : Vec c ℝ)
    (hq : 0 < q) (hs : 0 < s)
    (hw : mulMV (transposeM X) v = w)
    (hvN : mulMV X w = vN)
    (hsval : (∑ j, w j * w j) = s)
    (hn : (∑ i, v i * v i) = n)
    (hnN : (∑ i, vN i * vN i) = nN)
    (hc : Real.sqrt nN / Real.sqrt s - Real.sqrt n / Real.sqrt q < pcaEpsilon) :
    pcaLoop Real.sqrt X (fuel + 1) (fun i => v i / Real.sqrt q) pPrev =
      ((fun i => v i / Real.sqrt q), fun j => w j / Real.sqrt s) := by
  have hq' : Real.sqrt q ≠ 0 := ne_of_gt (Real.sqrt_pos.mpr hq)
  have hs' : Real.sqrt s ≠ 0 := ne_of_gt (Real.sqrt_pos.mpr hs)
  have hpUn := mulMV_div_sqrt (transposeM X) v w q hw
  have hpNorm := norm2_div_sqrt w q s hq hs.le hsval
  have hp : (fun j => 1 / (Real.sqrt s / Real.sqrt q) * (w j / Real.sqrt q)) =
      fun j => w j / Real.sqrt s := by
    funext j
    rw [one_div_div]
    field_simp
    ring
  have htNew := mulMV_div_sqrt X w vN s hvN
  have hnormN := norm2_div_sqrt vN s nN hs
    (by rw [← hnN]; exact Finset.sum_nonneg fun i _ => mul_self_nonneg _) hnN
  have hnormt := norm2_div_sqrt v q n hq
    (by rw [← hn]; exact Finset.sum_nonneg fun i _ => mul_self_nonneg _) hn
  rw [pcaLoop]
  simp only []
  rw [hpUn, hpNorm, if_neg (div_ne_zero hs' hq'), hp, htNew, hnormN, hnormt,
    if_pos hc]

theorem pcaComponentStep_T_other {r c k : ℕ} [NeZero c] (sqrt : α → α)
    (st : PCAState α r c k) (i j : Fin k) (hne : j ≠ i) (a : Fin r) :
    (pcaComponentStep sqrt st i).T a j = st.T a j := by
  simp [pcaComponentStep, setCol, hne]

theorem pcaComponentStep_P_other {r c k : ℕ} [NeZero c] (sqrt : α → α)
    (st : PCAState α r c k) (i j : Fin k) (hne : j ≠ i) (b : Fin c) :
    (pcaComponentStep sqrt st i).P b j = st.P b j := by
  simp [pcaComponentStep, setCol, hne]

theorem pcaFold_cols_other {r c k : ℕ} [NeZero c] (sqrt : α → α) :
    ∀ (l : List (Fin k)) (st : PCAState α r c k) (j : Fin k), (∀ i ∈ l, j ≠ i) →
      (∀ a, (l.foldl (pcaComponentStep sqrt) st).T a j = st.T a j) ∧
      (∀ b, (l.foldl (pcaComponentStep sqrt) st).P b j = st.P b j)
  | [], _, _, _ => ⟨fun _ => rfl, fun _ => rfl⟩
  | i :: l, st, j, h => by
    rw [List.foldl_cons]
    have hne : j ≠ i := h i (List.mem_cons_self _ _)
    have ih := pcaFold_cols_other sqrt l (pcaComponentStep sqrt st i) j
      (fun x hx => h x (List.mem_cons_of_mem _ hx))
    exact ⟨fun a => (ih.1 a).trans (pcaComponentStep_T_other sqrt st i j hne a),
      fun b => (ih.2 b).trans (pcaComponentStep_P_other sqrt st i j hne b)⟩

/-- The first column of the 5-component NIPALS output on `testX` is
exactly the `(t, p)` pair produced by the inner loop of component 0,
which runs on the untouched input matrix: later components only write
other columns. -/
theorem NIPALS_testX_col0 :
    (∀ a, (nipalsBody Real.sqrt testX 5).T a 0 =
      (pcaLoop Real.sqrt testX pcaMaxIterations
        (initialScoreVector testX) (fun _ => 0)).1 a) ∧
    (∀ b, (nipalsBody Real.sqrt testX 5).P b 0 =
      (pcaLoop Real.sqrt testX pcaMaxIterations
        (initialScoreVector testX) (fun _ => 0)).2 b) := by
  simp only [nipalsBody]
  rw [show (List.finRange 5) = [0, 1, 2, 3, 4] from rfl, List.foldl_cons]
  have hpres := pcaFold_cols_other (α := ℝ) Real.sqrt ([1, 2, 3, 4] : List (Fin 5))
    (pcaComponentStep Real.sqrt
      { T := fun _ _ => 0, P := fun _ _ => 0, eig := fun _ => 0, XRes := testX } 0)
    0 (by decide)
  constructor
  · intro a
    rw [hpres.1 a]
    simp [pcaComponentStep, setCol]
  · intro b
    rw [hpres.2 b]
    simp [pcaComponentStep, setCol]

/-- Interval bound for an entry `v/√q` against an expected value `e`:
rational brackets `l ≤ √q ≤ u` turn the two-sided tolerance check into
rational inequalities (stated for a nonnegative numerator `v`; negative
entries are handled by negating both `v` and `e`). -/
theorem abs_div_sqrt_sub_le (v q e tol l u : ℝ) (hl : 0 < l) (hu : 0 ≤ u)
    (hlb : l * l ≤ q) (hub : q ≤ u * u) (hv : 0 ≤ v)
    (h1 : e - tol ≤ v / u) (h2 : v / l ≤ e + tol) :
    |v / Real.sqrt q - e| ≤ tol := by
  have hsl : l ≤ Real.sqrt q := by
    calc l = Real.sqrt (l * l) := (Real.sqrt_mul_self hl.le).symm
      _ ≤ Real.sqrt q := Real.sqrt_le_sqrt hlb
  have hsu : Real.sqrt q ≤ u := by
    calc Real.sqrt q ≤ Real.sqrt (u * u) := Real.sqrt_le_sqrt hub
      _ = u := Real.sqrt_mul_self hu
  have hsq : 0 < Real.sqrt q := lt_of_lt_of_le hl hsl
  have hupper : v / Real.sqrt q ≤ v / l := by gcongr
  have hlower : v / u ≤ v / Real.sqrt q := by gcongr
  exact abs_le.mpr ⟨by linarith, by linarith⟩

theorem funext_fin7 {β : Type} (f g : Fin 7 → β) (h0 : f 0 = g 0)
    (h1 : f 1 = g 1) (h2 : f 2 = g 2) (h3 : f 3 = g 3) (h4 : f 4 = g 4)
    (h5 : f 5 = g 5) (h6 : f 6 = g 6) : f = g := by
  funext i
  fin_cases i <;> assumption

theorem funext_fin5 {β : Type} (f g : Fin 5 → β) (h0 : f 0 = g 0)
    (h1 : f 1 = g 1) (h2 : f 2 = g 2) (h3 : f 3 = g 3) (h4 : f 4 = g 4) :
    f = g := by
  funext i
  fin_cases i <;> assumption

theorem forall_fin7 {P : Fin 7 → Prop} (h0 : P 0) (h1 : P 1) (h2 : P 2)
    (h3 : P 3) (h4 : P 4) (h5 : P 5) (h6 : P 6) : ∀ i, P i := by
  intro i
  fin_cases i <;> assumption

theorem forall_fin5 {P : Fin 5 → Prop} (h0 : P 0) (h1 : P 1) (h2 : P 2)
    (h3 : P 3) (h4 : P 4) : ∀ i, P i := by
  intro i
  fin_cases i <;> assumption

theorem initialScoreVectorIndex_testX : initialScoreVectorIndex testX = (3 : Fin 5) := by
  have hval0 : colVariance testX (0 : Fin 5) = ((3481 : ℝ) / 3500) := by
    simp only [colVariance, testX, Fin.sum_univ_seven, vec7_at0, vec7_at1, vec7_at2, vec7_at3, vec7_at4, vec7_at5, vec7_at6, vec5_at0, vec5_at1, vec5_at2, vec5_at3, vec5_at4]
    norm_num
  have hval1 : colVariance testX (1 : Fin 5) = ((4356 : ℝ) / 4375) := by
    simp only [colVariance, testX, Fin.sum_univ_seven, vec7_at0, vec7_at1, vec7_at2, vec7_at3, vec7_at4, vec7_at5, vec7_at6, vec5_at0, vec5_at1, vec5_at2, vec5_at3, vec5_at4]
    norm_num
  have hval2 : colVariance testX (2 : Fin 5) = ((4377 : ℝ) / 4375) := by
    simp only [colVariance, testX, Fin.sum_univ_seven, vec7_at0, vec7_at1, vec7_at2, vec7_at3, vec7_at4, vec7_at5, vec7_at6, vec5_at0, vec5_at1, vec5_at2, vec5_at3, vec5_at4]
    norm_num
  have hval3 : colVariance testX (3 : Fin 5) = ((2509 : ℝ) / 2500) := by
    simp only [colVariance, testX, Fin.sum_univ_seven, vec7_at0, vec7_at1, vec7_at2, vec7_at3, vec7_at4, vec7_at5, vec7_at6, vec5_at0, vec5_at1, vec5_at2, vec5_at3, vec5_at4]
    norm_num
  have hval4 : colVariance testX (4 : Fin 5) = ((244961 : ℝ) / 245000) := by
    simp only [colVariance, testX, Fin.sum_univ_seven, vec7_at0, vec7_at1, vec7_at2, vec7_at3, vec7_at4, vec7_at5, vec7_at6, vec5_at0, vec5_at1, vec5_at2, vec5_at3, vec5_at4]
    norm_num
  rw [initialScoreVectorIndex, show (List.finRange 5) = [0, 1, 2, 3, 4] from rfl]
  simp only [List.foldl_cons, List.foldl_nil]
  rw [hval0, hval1, hval2, hval3, hval4]
  norm_num

theorem initialScoreVector_testX :
    initialScoreVector testX = fun i => (![((-137 : ℝ) / 100), ((-28 : ℝ) / 25), ((-93 : ℝ) / 100), ((31 : ℝ) / 50), ((93 : ℝ) / 100), ((53 : ℝ) / 50), ((81 : ℝ) / 100)]) i / Real.sqrt 1 := by
  refine funext_fin7 _ _ ?_ ?_ ?_ ?_ ?_ ?_ ?_ <;>
    · simp only [initialScoreVector]
      rw [initialScoreVectorIndex_testX]
      simp only [testX, vec7_at0, vec7_at1, vec7_at2, vec7_at3, vec7_at4,
        vec7_at5, vec7_at6, vec5_at0, vec5_at1, vec5_at2, vec5_at3, vec5_at4,
        Real.sqrt_one, div_one]
      norm_num

set_option maxHeartbeats 2000000 in
theorem c1_loop_eval :
    pcaLoop Real.sqrt testX pcaMaxIterations (initialScoreVector testX) (fun _ => 0) =
      ((fun i => (![((-241831078095718881728271 : ℝ) / 250000000000000000), ((-126513125659055440849397 : ℝ) / 200000000000000000), ((-1112865441074259741721 : ℝ) / 4000000000000000), ((-52701036189287306492191 : ℝ) / 1000000000000000000), ((244374143200509721080641 : ℝ) / 1000000000000000000), ((631055244416749020242887 : ℝ) / 1000000000000000000), ((1056882832650441267573513 : ℝ) / 1000000000000000000)]) i / Real.sqrt ((2035728960393392725577244178976509316772121 : ℝ) / 20000000000000000000000000000000)),
       (fun j => (![((365570118744807534756851949 : ℝ) / 100000000000000000000), ((455429261458792676745403087 : ℝ) / 100000000000000000000), ((425912206926824729029026447 : ℝ) / 100000000000000000000), ((50150449887159282866869053 : ℝ) / 12500000000000000000), ((221064039621574875246795251 : ℝ) / 50000000000000000000)]) j / Real.sqrt ((878900098305115663655742864405313836865396846247759759 : ℝ) / 10000000000000000000000000000000000000000))) := by
  have hw0 : mulMV (transposeM testX) ![((-137 : ℝ) / 100), ((-28 : ℝ) / 25), ((-93 : ℝ) / 100), ((31 : ℝ) / 50), ((93 : ℝ) / 100), ((53 : ℝ) / 50), ((81 : ℝ) / 100)] = ![((15281 : ℝ) / 5000), ((15169 : ℝ) / 2500), ((52317 : ℝ) / 10000), ((17563 : ℝ) / 2500), ((12941 : ℝ) / 2000)] :=
    funext_fin5 _ _
      (by simp only [mulMV, transposeM, testX, Fin.sum_univ_seven, vec7_at0, vec7_at1, vec7_at2, vec7_at3, vec7_at4, vec7_at5, vec7_at6, vec5_at0, vec5_at1, vec5_at2, vec5_at3, vec5_at4]; norm_num)
      (by simp only [mulMV, transposeM, testX, Fin.sum_univ_seven, vec7_at0, vec7_at1, vec7_at2, vec7_at3, vec7_at4, vec7_at5, vec7_at6, vec5_at0, vec5_at1, vec5_at2, vec5_at3, vec5_at4]; norm_num)
      (by simp only [mulMV, transposeM, testX, Fin.sum_univ_seven, vec7_at0, vec7_at1, vec7_at2, vec7_at3, vec7_at4, vec7_at5, vec7_at6, vec5_at0, vec5_at1, vec5_at2, vec5_at3, vec5_at4]; norm_num)
      (by simp only [mulMV, transposeM, testX, Fin.sum_univ_seven, vec7_at0, vec7_at1, vec7_at2, vec7_at3, vec7_at4, vec7_at5, vec7_at6, vec5_at0, vec5_at1, vec5_at2, vec5_at3, vec5_at4]; norm_num)
      (by simp only [mulMV, transposeM, testX, Fin.sum_univ_seven, vec7_at0, vec7_at1, vec7_at2, vec7_at3, vec7_at4, vec7_at5, vec7_at6, vec5_at0, vec5_at1, vec5_at2, vec5_at3, vec5_at4]; norm_num)
  have hv1 : mulMV testX ![((15281 : ℝ) / 5000), ((15169 : ℝ) / 2500), ((52317 : ℝ) / 10000), ((17563 : ℝ) / 2500), ((12941 : ℝ) / 2000)] = ![((-19223051 : ℝ) / 500000), ((-5145409 : ℝ) / 200000), ((-1692531 : ℝ) / 125000), ((917319 : ℝ) / 1000000), ((5897979 : ℝ) / 500000), ((25713009 : ℝ) / 1000000), ((19675907 : ℝ) / 500000)] :=
    funext_fin7 _ _
      (by simp only [mulMV, testX, Fin.sum_univ_five, vec7_at0, vec7_at1, vec7_at2, vec7_at3, vec7_at4, vec7_at5, vec7_at6, vec5_at0, vec5_at1, vec5_at2, vec5_at3, vec5_at4]; norm_num)
      (by simp only [mulMV, testX, Fin.sum_univ_five, vec7_at0, vec7_at1, vec7_at2, vec7_at3, vec7_at4, vec7_at5, vec7_at6, vec5_at0, vec5_at1, vec5_at2, vec5_at3, vec5_at4]; norm_num)
      (by simp only [mulMV, testX, Fin.sum_univ_five, vec7_at0, vec7_at1, vec7_at2, vec7_at3, vec7_at4, vec7_at5, vec7_at6, vec5_at0, vec5_at1, vec5_at2, vec5_at3, vec5_at4]; norm_num)
      (by simp only [mulMV, testX, Fin.sum_univ_five, vec7_at0, vec7_at1, vec7_at2, vec7_at3, vec7_at4, vec7_at5, vec7_at6, vec5_at0, vec5_at1, vec5_at2, vec5_at3, vec5_at4]; norm_num)
      (by simp only [mulMV, testX, Fin.sum_univ_five, vec7_at0, vec7_at1, vec7_at2, vec7_at3, vec7_at4, vec7_at5, vec7_at6, vec5_at0, vec5_at1, vec5_at2, vec5_at3, vec5_at4]; norm_num)
      (by simp only [mulMV, testX, Fin.sum_univ_five, vec7_at0, vec7_at1, vec7_at2, vec7_at3, vec7_at4, vec7_at5, vec7_at6, vec5_at0, vec5_at1, vec5_at2, vec5_at3, vec5_at4]; norm_num)
      (by simp only [mulMV, testX, Fin.sum_univ_five, vec7_at0, vec7_at1, vec7_at2, vec7_at3, vec7_at4, vec7_at5, vec7_at6, vec5_at0, vec5_at1, vec5_at2, vec5_at3, vec5_at4]; norm_num)
  have hssum0 : (∑ j, (![((15281 : ℝ) / 5000), ((15169 : ℝ) / 2500), ((52317 : ℝ) / 10000), ((17563 : ℝ) / 2500), ((12941 : ℝ) / 2000)]) j * (![((15281 : ℝ) / 5000), ((15169 : ℝ) / 2500), ((52317 : ℝ) / 10000), ((17563 : ℝ) / 2500), ((12941 : ℝ) / 2000)]) j) = ((8237380919 : ℝ) / 50000000) := by
    simp only [Fin.sum_univ_five, vec5_at0, vec5_at1, vec5_at2, vec5_at3, vec5_at4]
    norm_num
  have hw1 : mulMV (transposeM testX) ![((-19223051 : ℝ) / 500000), ((-5145409 : ℝ) / 200000), ((-1692531 : ℝ) / 125000), ((917319 : ℝ) / 1000000), ((5897979 : ℝ) / 500000), ((25713009 : ℝ) / 1000000), ((19675907 : ℝ) / 500000)] = ![((6814878013 : ℝ) / 50000000), ((1793868923 : ℝ) / 10000000), ((16632307431 : ℝ) / 100000000), ((8237380919 : ℝ) / 50000000), ((2203257491 : ℝ) / 12500000)] :=
    funext_fin5 _ _
      (by simp only [mulMV, transposeM, testX, Fin.sum_univ_seven, vec7_at0, vec7_at1, vec7_at2, vec7_at3, vec7_at4, vec7_at5, vec7_at6, vec5_at0, vec5_at1, vec5_at2, vec5_at3, vec5_at4]; norm_num)
      (by simp only [mulMV, transposeM, testX, Fin.sum_univ_seven, vec7_at0, vec7_at1, vec7_at2, vec7_at3, vec7_at4, vec7_at5, vec7_at6, vec5_at0, vec5_at1, vec5_at2, vec5_at3, vec5_at4]; norm_num)
      (by simp only [mulMV, transposeM, testX, Fin.sum_univ_seven, vec7_at0, vec7_at1, vec7_at2, vec7_at3, vec7_at4, vec7_at5, vec7_at6, vec5_at0, vec5_at1, vec5_at2, vec5_at3, vec5_at4]; norm_num)
      (by simp only [mulMV, transposeM, testX, Fin.sum_univ_seven, vec7_at0, vec7_at1, vec7_at2, vec7_at3, vec7_at4, vec7_at5, vec7_at6, vec5_at0, vec5_at1, vec5_at2, vec5_at3, vec5_at4]; norm_num)
      (by simp only [mulMV, transposeM, testX, Fin.sum_univ_seven, vec7_at0, vec7_at1, vec7_at2, vec7_at3, vec7_at4, vec7_at5, vec7_at6, vec5_at0, vec5_at1, vec5_at2, vec5_at3, vec5_at4]; norm_num)
  have hv2 : mulMV testX ![((6814878013 : ℝ) / 50000000), ((1793868923 : ℝ) / 10000000), ((16632307431 : ℝ) / 100000000), ((8237380919 : ℝ) / 50000000), ((2203257491 : ℝ) / 12500000)] = ![((-11214361760599 : ℝ) / 10000000000), ((-3678913854047 : ℝ) / 5000000000), ((-1664012139531 : ℝ) / 5000000000), ((-486349865047 : ℝ) / 10000000000), ((2913392587501 : ℝ) / 10000000000), ((3670704203371 : ℝ) / 5000000000), ((12149388678487 : ℝ) / 10000000000)] :=
    funext_fin7 _ _
      (by simp only [mulMV, testX, Fin.sum_univ_five, vec7_at0, vec7_at1, vec7_at2, vec7_at3, vec7_at4, vec7_at5, vec7_at6, vec5_at0, vec5_at1, vec5_at2, vec5_at3, vec5_at4]; norm_num)
      (by simp only [mulMV, testX, Fin.sum_univ_five, vec7_at0, vec7_at1, vec7_at2, vec7_at3, vec7_at4, vec7_at5, vec7_at6, vec5_at0, vec5_at1, vec5_at2, vec5_at3, vec5_at4]; norm_num)
      (by simp only [mulMV, testX, Fin.sum_univ_five, vec7_at0, vec7_at1, vec7_at2, vec7_at3, vec7_at4, vec7_at5, vec7_at6, vec5_at0, vec5_at1, vec5_at2, vec5_at3, vec5_at4]; norm_num)
      (by simp only [mulMV, testX, Fin.sum_univ_five, vec7_at0, vec7_at1, vec7_at2, vec7_at3, vec7_at4, vec7_at5, vec7_at6, vec5_at0, vec5_at1, vec5_at2, vec5_at3, vec5_at4]; norm_num)
      (by simp only [mulMV, testX, Fin.sum_univ_five, vec7_at0, vec7_at1, vec7_at2, vec7_at3, vec7_at4, vec7_at5, vec7_at6, vec5_at0, vec5_at1, vec5_at2, vec5_at3, vec5_at4]; norm_num)
      (by simp only [mulMV, testX, Fin.sum_univ_five, vec7_at0, vec7_at1, vec7_at2, vec7_at3, vec7_at4, vec7_at5, vec7_at6, vec5_at0, vec5_at1, vec5_at2, vec5_at3, vec5_at4]; norm_num)
      (by simp only [mulMV, testX, Fin.sum_univ_five, vec7_at0, vec7_at1, vec7_at2, vec7_at3, vec7_at4, vec7_at5, vec7_at6, vec5_at0, vec5_at1, vec5_at2, vec5_at3, vec5_at4]; norm_num)
  have hssum1 : (∑ j, (![((6814878013 : ℝ) / 50000000), ((1793868923 : ℝ) / 10000000), ((16632307431 : ℝ) / 100000000), ((8237380919 : ℝ) / 50000000), ((2203257491 : ℝ) / 12500000)]) j * (![((6814878013 : ℝ) / 50000000), ((1793868923 : ℝ) / 10000000), ((16632307431 : ℝ) / 100000000), ((8237380919 : ℝ) / 50000000), ((2203257491 : ℝ) / 12500000)]) j) = ((273259247460473525753 : ℝ) / 2000000000000000) := by
    simp only [Fin.sum_univ_five, vec5_at0, vec5_at1, vec5_at2, vec5_at3, vec5_at4]
    norm_num
  have hw2 : mulMV (transposeM testX) ![((-11214361760599 : ℝ) / 10000000000), ((-3678913854047 : ℝ) / 5000000000), ((-1664012139531 : ℝ) / 5000000000), ((-486349865047 : ℝ) / 10000000000), ((2913392587501 : ℝ) / 10000000000), ((3670704203371 : ℝ) / 5000000000), ((12149388678487 : ℝ) / 10000000000)] = ![((4202027266229093 : ℝ) / 1000000000000), ((2637027472144263 : ℝ) / 500000000000), ((615864969283953 : ℝ) / 125000000000), ((934606423107627 : ℝ) / 200000000000), ((5128101525804959 : ℝ) / 1000000000000)] :=
    funext_fin5 _ _
      (by simp only [mulMV, transposeM, testX, Fin.sum_univ_seven, vec7_at0, vec7_at1, vec7_at2, vec7_at3, vec7_at4, vec7_at5, vec7_at6, vec5_at0, vec5_at1, vec5_at2, vec5_at3, vec5_at4]; norm_num)
      (by simp only [mulMV, transposeM, testX, Fin.sum_univ_seven, vec7_at0, vec7_at1, vec7_at2, vec7_at3, vec7_at4, vec7_at5, vec7_at6, vec5_at0, vec5_at1, vec5_at2, vec5_at3, vec5_at4]; norm_num)
      (by simp only [mulMV, transposeM, testX, Fin.sum_univ_seven, vec7_at0, vec7_at1, vec7_at2, vec7_at3, vec7_at4, vec7_at5, vec7_at6, vec5_at0, vec5_at1, vec5_at2, vec5_at3, vec5_at4]; norm_num)
      (by simp only [mulMV, transposeM, testX, Fin.sum_univ_seven, vec7_at0, vec7_at1, vec7_at2, vec7_at3, vec7_at4, vec7_at5, vec7_at6, vec5_at0, vec5_at1, vec5_at2, vec5_at3, vec5_at4]; norm_num)
      (by simp only [mulMV, transposeM, testX, Fin.sum_univ_seven, vec7_at0, vec7_at1, vec7_at2, vec7_at3, vec7_at4, vec7_at5, vec7_at6, vec5_at0, vec5_at1, vec5_at2, vec5_at3, vec5_at4]; norm_num)
  have hv3 : mulMV testX ![((4202027266229093 : ℝ) / 1000000000000), ((2637027472144263 : ℝ) / 500000000000), ((615864969283953 : ℝ) / 125000000000), ((934606423107627 : ℝ) / 200000000000), ((5128101525804959 : ℝ) / 1000000000000)] = ![((-1646154215590697547 : ℝ) / 50000000000000), ((-10769195503896331 : ℝ) / 500000000000), ((-237660253643154359 : ℝ) / 25000000000000), ((-43710424079075149 : ℝ) / 25000000000000), ((417290019958264319 : ℝ) / 50000000000000), ((1074363747723828623 : ℝ) / 50000000000000), ((3593450809011198401 : ℝ) / 100000000000000)] :=
    funext_fin7 _ _
      (by simp only [mulMV, testX, Fin.sum_univ_five, vec7_at0, vec7_at1, vec7_at2, vec7_at3, vec7_at4, vec7_at5, vec7_at6, vec5_at0, vec5_at1, vec5_at2, vec5_at3, vec5_at4]; norm_num)
      (by simp only [mulMV, testX, Fin.sum_univ_five, vec7_at0, vec7_at1, vec7_at2, vec7_at3, vec7_at4, vec7_at5, vec7_at6, vec5_at0, vec5_at1, vec5_at2, vec5_at3, vec5_at4]; norm_num)
      (by simp only [mulMV, testX, Fin.sum_univ_five, vec7_at0, vec7_at1, vec7_at2, vec7_at3, vec7_at4, vec7_at5, vec7_at6, vec5_at0, vec5_at1, vec5_at2, vec5_at3, vec5_at4]; norm_num)
      (by simp only [mulMV, testX, Fin.sum_univ_five, vec7_at0, vec7_at1, vec7_at2, vec7_at3, vec7_at4, vec7_at5, vec7_at6, vec5_at0, vec5_at1, vec5_at2, vec5_at3, vec5_at4]; norm_num)
      (by simp only [mulMV, testX, Fin.sum_univ_five, vec7_at0, vec7_at1, vec7_at2, vec7_at3, vec7_at4, vec7_at5, vec7_at6, vec5_at0, vec5_at1, vec5_at2, vec5_at3, vec5_at4]; norm_num)
      (by simp only [mulMV, testX, Fin.sum_univ_five, vec7_at0, vec7_at1, vec7_at2, vec7_at3, vec7_at4, vec7_at5, vec7_at6, vec5_at0, vec5_at1, vec5_at2, vec5_at3, vec5_at4]; norm_num)
      (by simp only [mulMV, testX, Fin.sum_univ_five, vec7_at0, vec7_at1, vec7_at2, vec7_at3, vec7_at4, vec7_at5, vec7_at6, vec5_at0, vec5_at1, vec5_at2, vec5_at3, vec5_at4]; norm_num)
  have hssum2 : (∑ j, (![((4202027266229093 : ℝ) / 1000000000000), ((2637027472144263 : ℝ) / 500000000000), ((615864969283953 : ℝ) / 125000000000), ((934606423107627 : ℝ) / 200000000000), ((5128101525804959 : ℝ) / 1000000000000)]) j * (![((4202027266229093 : ℝ) / 1000000000000), ((2637027472144263 : ℝ) / 500000000000), ((615864969283953 : ℝ) / 125000000000), ((934606423107627 : ℝ) / 200000000000), ((5128101525804959 : ℝ) / 1000000000000)]) j) = ((117881881378352917805448614722607 : ℝ) / 1000000000000000000000000) := by
    simp only [Fin.sum_univ_five, vec5_at0, vec5_at1, vec5_at2, vec5_at3, vec5_at4]
    norm_num
  have hw3 : mulMV (transposeM testX) ![((-1646154215590697547 : ℝ) / 50000000000000), ((-10769195503896331 : ℝ) / 500000000000), ((-237660253643154359 : ℝ) / 25000000000000), ((-43710424079075149 : ℝ) / 25000000000000), ((417290019958264319 : ℝ) / 50000000000000), ((1074363747723828623 : ℝ) / 50000000000000), ((3593450809011198401 : ℝ) / 100000000000000)] = ![((1242928117557314262987 : ℝ) / 10000000000000000), ((1549862547691611452981 : ℝ) / 10000000000000000), ((1449228046819545938667 : ℝ) / 10000000000000000), ((273259247460473525753 : ℝ) / 2000000000000000), ((1504883131695035814531 : ℝ) / 10000000000000000)] :=
    funext_fin5 _ _
      (by simp only [mulMV, transposeM, testX, Fin.sum_univ_seven, vec7_at0, vec7_at1, vec7_at2, vec7_at3, vec7_at4, vec7_at5, vec7_at6, vec5_at0, vec5_at1, vec5_at2, vec5_at3, vec5_at4]; norm_num)
      (by simp only [mulMV, transposeM, testX, Fin.sum_univ_seven, vec7_at0, vec7_at1, vec7_at2, vec7_at3, vec7_at4, vec7_at5, vec7_at6, vec5_at0, vec5_at1, vec5_at2, vec5_at3, vec5_at4]; norm_num)
      (by simp only [mulMV, transposeM, testX, Fin.sum_univ_seven, vec7_at0, vec7_at1, vec7_at2, vec7_at3, vec7_at4, vec7_at5, vec7_at6, vec5_at0, vec5_at1, vec5_at2, vec5_at3, vec5_at4]; norm_num)
      (by simp only [mulMV, transposeM, testX, Fin.sum_univ_seven, vec7_at0, vec7_at1, vec7_at2, vec7_at3, vec7_at4, vec7_at5, vec7_at6, vec5_at0, vec5_at1, vec5_at2, vec5_at3, vec5_at4]; norm_num)
      (by simp only [mulMV, transposeM, testX, Fin.sum_univ_seven, vec7_at0, vec7_at1, vec7_at2, vec7_at3, vec7_at4, vec7_at5, vec7_at6, vec5_at0, vec5_at1, vec5_at2, vec5_at3, vec5_at4]; norm_num)
  have hv4 : mulMV testX ![((1242928117557314262987 : ℝ) / 10000000000000000), ((1549862547691611452981 : ℝ) / 10000000000000000), ((1449228046819545938667 : ℝ) / 10000000000000000), ((273259247460473525753 : ℝ) / 2000000000000000), ((1504883131695035814531 : ℝ) / 10000000000000000)] = ![((-241831078095718881728271 : ℝ) / 250000000000000000), ((-126513125659055440849397 : ℝ) / 200000000000000000), ((-1112865441074259741721 : ℝ) / 4000000000000000), ((-52701036189287306492191 : ℝ) / 1000000000000000000), ((244374143200509721080641 : ℝ) / 1000000000000000000), ((631055244416749020242887 : ℝ) / 1000000000000000000), ((1056882832650441267573513 : ℝ) / 1000000000000000000)] :=
    funext_fin7 _ _
      (by simp only [mulMV, testX, Fin.sum_univ_five, vec7_at0, vec7_at1, vec7_at2, vec7_at3, vec7_at4, vec7_at5, vec7_at6, vec5_at0, vec5_at1, vec5_at2, vec5_at3, vec5_at4]; norm_num)
      (by simp only [mulMV, testX, Fin.sum_univ_five, vec7_at0, vec7_at1, vec7_at2, vec7_at3, vec7_at4, vec7_at5, vec7_at6, vec5_at0, vec5_at1, vec5_at2, vec5_at3, vec5_at4]; norm_num)
      (by simp only [mulMV, testX, Fin.sum_univ_five, vec7_at0, vec7_at1, vec7_at2, vec7_at3, vec7_at4, vec7_at5, vec7_at6, vec5_at0, vec5_at1, vec5_at2, vec5_at3, vec5_at4]; norm_num)
      (by simp only [mulMV, testX, Fin.sum_univ_five, vec7_at0, vec7_at1, vec7_at2, vec7_at3, vec7_at4, vec7_at5, vec7_at6, vec5_at0, vec5_at1, vec5_at2, vec5_at3, vec5_at4]; norm_num)
      (by simp only [mulMV, testX, Fin.sum_univ_five, vec7_at0, vec7_at1, vec7_at2, vec7_at3, vec7_at4, vec7_at5, vec7_at6, vec5_at0, vec5_at1, vec5_at2, vec5_at3, vec5_at4]; norm_num)
      (by simp only [mulMV, testX, Fin.sum_univ_five, vec7_at0, vec7_at1, vec7_at2, vec7_at3, vec7_at4, vec7_at5, vec7_at6, vec5_at0, vec5_at1, vec5_at2, vec5_at3, vec5_at4]; norm_num)
      (by simp only [mulMV, testX, Fin.sum_univ_five, vec7_at0, vec7_at1, vec7_at2, vec7_at3, vec7_at4, vec7_at5, vec7_at6, vec5_at0, vec5_at1, vec5_at2, vec5_at3, vec5_at4]; norm_num)
  have hssum3 : (∑ j, (![((1242928117557314262987 : ℝ) / 10000000000000000), ((1549862547691611452981 : ℝ) / 10000000000000000), ((1449228046819545938667 : ℝ) / 10000000000000000), ((273259247460473525753 : ℝ) / 2000000000000000), ((1504883131695035814531 : ℝ) / 10000000000000000)]) j * (![((1242928117557314262987 : ℝ) / 10000000000000000), ((1549862547691611452981 : ℝ) / 10000000000000000), ((1449228046819545938667 : ℝ) / 10000000000000000), ((273259247460473525753 : ℝ) / 2000000000000000), ((1504883131695035814531 : ℝ) / 10000000000000000)]) j) = ((2035728960393392725577244178976509316772121 : ℝ) / 20000000000000000000000000000000) := by
    simp only [Fin.sum_univ_five, vec5_at0, vec5_at1, vec5_at2, vec5_at3, vec5_at4]
    norm_num
  have hw4 : mulMV (transposeM testX) ![((-241831078095718881728271 : ℝ) / 250000000000000000), ((-126513125659055440849397 : ℝ) / 200000000000000000), ((-1112865441074259741721 : ℝ) / 4000000000000000), ((-52701036189287306492191 : ℝ) / 1000000000000000000), ((244374143200509721080641 : ℝ) / 1000000000000000000), ((631055244416749020242887 : ℝ) / 1000000000000000000), ((1056882832650441267573513 : ℝ) / 1000000000000000000)] = ![((365570118744807534756851949 : ℝ) / 100000000000000000000), ((455429261458792676745403087 : ℝ) / 100000000000000000000), ((425912206926824729029026447 : ℝ) / 100000000000000000000), ((50150449887159282866869053 : ℝ) / 12500000000000000000), ((221064039621574875246795251 : ℝ) / 50000000000000000000)] :=
    funext_fin5 _ _
      (by simp only [mulMV, transposeM, testX, Fin.sum_univ_seven, vec7_at0, vec7_at1, vec7_at2, vec7_at3, vec7_at4, vec7_at5, vec7_at6, vec5_at0, vec5_at1, vec5_at2, vec5_at3, vec5_at4]; norm_num)
      (by simp only [mulMV, transposeM, testX, Fin.sum_univ_seven, vec7_at0, vec7_at1, vec7_at2, vec7_at3, vec7_at4, vec7_at5, vec7_at6, vec5_at0, vec5_at1, vec5_at2, vec5_at3, vec5_at4]; norm_num)
      (by simp only [mulMV, transposeM, testX, Fin.sum_univ_seven, vec7_at0, vec7_at1, vec7_at2, vec7_at3, vec7_at4, vec7_at5, vec7_at6, vec5_at0, vec5_at1, vec5_at2, vec5_at3, vec5_at4]; norm_num)
      (by simp only [mulMV, transposeM, testX, Fin.sum_univ_seven, vec7_at0, vec7_at1, vec7_at2, vec7_at3, vec7_at4, vec7_at5, vec7_at6, vec5_at0, vec5_at1, vec5_at2, vec5_at3, vec5_at4]; norm_num)
      (by simp only [mulMV, transposeM, testX, Fin.sum_univ_seven, vec7_at0, vec7_at1, vec7_at2, vec7_at3, vec7_at4, vec7_at5, vec7_at6, vec5_at0, vec5_at1, vec5_at2, vec5_at3, vec5_at4]; norm_num)
  have hv5 : mulMV testX ![((365570118744807534756851949 : ℝ) / 100000000000000000000), ((455429261458792676745403087 : ℝ) / 100000000000000000000), ((425912206926824729029026447 : ℝ) / 100000000000000000000), ((50150449887159282866869053 : ℝ) / 12500000000000000000), ((221064039621574875246795251 : ℝ) / 50000000000000000000)] = ![((-35530362555675852377981727329 : ℝ) / 1250000000000000000000), ((-11616571063118674535717097839 : ℝ) / 625000000000000000000), ((-81707241019716761986469924291 : ℝ) / 10000000000000000000000), ((-3108143875285942407914263889 : ℝ) / 2000000000000000000000), ((71773850278341407619263072379 : ℝ) / 10000000000000000000000), ((46355254550020911563353245387 : ℝ) / 2500000000000000000000), ((310603257452270181499186164367 : ℝ) / 10000000000000000000000)] :=
    funext_fin7 _ _
      (by simp only [mulMV, testX, Fin.sum_univ_five, vec7_at0, vec7_at1, vec7_at2, vec7_at3, vec7_at4, vec7_at5, vec7_at6, vec5_at0, vec5_at1, vec5_at2, vec5_at3, vec5_at4]; norm_num)
      (by simp only [mulMV, testX, Fin.sum_univ_five, vec7_at0, vec7_at1, vec7_at2, vec7_at3, vec7_at4, vec7_at5, vec7_at6, vec5_at0, vec5_at1, vec5_at2, vec5_at3, vec5_at4]; norm_num)
      (by simp only [mulMV, testX, Fin.sum_univ_five, vec7_at0, vec7_at1, vec7_at2, vec7_at3, vec7_at4, vec7_at5, vec7_at6, vec5_at0, vec5_at1, vec5_at2, vec5_at3, vec5_at4]; norm_num)
      (by simp only [mulMV, testX, Fin.sum_univ_five, vec7_at0, vec7_at1, vec7_at2, vec7_at3, vec7_at4, vec7_at5, vec7_at6, vec5_at0, vec5_at1, vec5_at2, vec5_at3, vec5_at4]; norm_num)
      (by simp only [mulMV, testX, Fin.sum_univ_five, vec7_at0, vec7_at1, vec7_at2, vec7_at3, vec7_at4, vec7_at5, vec7_at6, vec5_at0, vec5_at1, vec5_at2, vec5_at3, vec5_at4]; norm_num)
      (by simp only [mulMV, testX, Fin.sum_univ_five, vec7_at0, vec7_at1, vec7_at2, vec7_at3, vec7_at4, vec7_at5, vec7_at6, vec5_at0, vec5_at1, vec5_at2, vec5_at3, vec5_at4]; norm_num)
      (by simp only [mulMV, testX, Fin.sum_univ_five, vec7_at0, vec7_at1, vec7_at2, vec7_at3, vec7_at4, vec7_at5, vec7_at6, vec5_at0, vec5_at1, vec5_at2, vec5_at3, vec5_at4]; norm_num)
  have hssum4 : (∑ j, (![((365570118744807534756851949 : ℝ) / 100000000000000000000), ((455429261458792676745403087 : ℝ) / 100000000000000000000), ((425912206926824729029026447 : ℝ) / 100000000000000000000), ((50150449887159282866869053 : ℝ) / 12500000000000000000), ((221064039621574875246795251 : ℝ) / 50000000000000000000)]) j * (![((365570118744807534756851949 : ℝ) / 100000000000000000000), ((455429261458792676745403087 : ℝ) / 100000000000000000000), ((425912206926824729029026447 : ℝ) / 100000000000000000000), ((50150449887159282866869053 : ℝ) / 12500000000000000000), ((221064039621574875246795251 : ℝ) / 50000000000000000000)]) j) = ((878900098305115663655742864405313836865396846247759759 : ℝ) / 10000000000000000000000000000000000000000) := by
    simp only [Fin.sum_univ_five, vec5_at0, vec5_at1, vec5_at2, vec5_at3, vec5_at4]
    norm_num
  have hnsum0 : (∑ i, (![((-137 : ℝ) / 100), ((-28 : ℝ) / 25), ((-93 : ℝ) / 100), ((31 : ℝ) / 50), ((93 : ℝ) / 100), ((53 : ℝ) / 50), ((81 : ℝ) / 100)]) i * (![((-137 : ℝ) / 100), ((-28 : ℝ) / 25), ((-93 : ℝ) / 100), ((31 : ℝ) / 50), ((93 : ℝ) / 100), ((53 : ℝ) / 50), ((81 : ℝ) / 100)]) i) = ((17563 : ℝ) / 2500) := by
    simp only [Fin.sum_univ_seven, vec7_at0, vec7_at1, vec7_at2, vec7_at3, vec7_at4, vec7_at5, vec7_at6]
    norm_num
  have hnsum1 : (∑ i, (![((-19223051 : ℝ) / 500000), ((-5145409 : ℝ) / 200000), ((-1692531 : ℝ) / 125000), ((917319 : ℝ) / 1000000), ((5897979 : ℝ) / 500000), ((25713009 : ℝ) / 1000000), ((19675907 : ℝ) / 500000)]) i * (![((-19223051 : ℝ) / 500000), ((-5145409 : ℝ) / 200000), ((-1692531 : ℝ) / 125000), ((917319 : ℝ) / 1000000), ((5897979 : ℝ) / 500000), ((25713009 : ℝ) / 1000000), ((19675907 : ℝ) / 500000)]) i) = ((934606423107627 : ℝ) / 200000000000) := by
    simp only [Fin.sum_univ_seven, vec7_at0, vec7_at1, vec7_at2, vec7_at3, vec7_at4, vec7_at5, vec7_at6]
    norm_num
  have hnsum2 : (∑ i, (![((-11214361760599 : ℝ) / 10000000000), ((-3678913854047 : ℝ) / 5000000000), ((-1664012139531 : ℝ) / 5000000000), ((-486349865047 : ℝ) / 10000000000), ((2913392587501 : ℝ) / 10000000000), ((3670704203371 : ℝ) / 5000000000), ((12149388678487 : ℝ) / 10000000000)]) i * (![((-11214361760599 : ℝ) / 10000000000), ((-3678913854047 : ℝ) / 5000000000), ((-1664012139531 : ℝ) / 5000000000), ((-486349865047 : ℝ) / 10000000000), ((2913392587501 : ℝ) / 10000000000), ((3670704203371 : ℝ) / 5000000000), ((12149388678487 : ℝ) / 10000000000)]) i) = ((50150449887159282866869053 : ℝ) / 12500000000000000000) := by
    simp only [Fin.sum_univ_seven, vec7_at0, vec7_at1, vec7_at2, vec7_at3, vec7_at4, vec7_at5, vec7_at6]
    norm_num
  have hnsum3 : (∑ i, (![((-1646154215590697547 : ℝ) / 50000000000000), ((-10769195503896331 : ℝ) / 500000000000), ((-237660253643154359 : ℝ) / 25000000000000), ((-43710424079075149 : ℝ) / 25000000000000), ((417290019958264319 : ℝ) / 50000000000000), ((1074363747723828623 : ℝ) / 50000000000000), ((3593450809011198401 : ℝ) / 100000000000000)]) i * (![((-1646154215590697547 : ℝ) / 50000000000000), ((-10769195503896331 : ℝ) / 500000000000), ((-237660253643154359 : ℝ) / 25000000000000), ((-43710424079075149 : ℝ) / 25000000000000), ((417290019958264319 : ℝ) / 50000000000000), ((1074363747723828623 : ℝ) / 50000000000000), ((3593450809011198401 : ℝ) / 100000000000000)]) i) = ((34639048044935226608560684933986274509 : ℝ) / 10000000000000000000000000000) := by
    simp only [Fin.sum_univ_seven, vec7_at0, vec7_at1, vec7_at2, vec7_at3, vec7_at4, vec7_at5, vec7_at6]
    norm_num
  have hnsum4 : (∑ i, (![((-241831078095718881728271 : ℝ) / 250000000000000000), ((-126513125659055440849397 : ℝ) / 200000000000000000), ((-1112865441074259741721 : ℝ) / 4000000000000000), ((-52701036189287306492191 : ℝ) / 1000000000000000000), ((244374143200509721080641 : ℝ) / 1000000000000000000), ((631055244416749020242887 : ℝ) / 1000000000000000000), ((1056882832650441267573513 : ℝ) / 1000000000000000000)]) i * (![((-241831078095718881728271 : ℝ) / 250000000000000000), ((-126513125659055440849397 : ℝ) / 200000000000000000), ((-1112865441074259741721 : ℝ) / 4000000000000000), ((-52701036189287306492191 : ℝ) / 1000000000000000000), ((244374143200509721080641 : ℝ) / 1000000000000000000), ((631055244416749020242887 : ℝ) / 1000000000000000000), ((1056882832650441267573513 : ℝ) / 1000000000000000000)]) i) = ((2990988107086200967049482520429633434148889251081 : ℝ) / 1000000000000000000000000000000000000) := by
    simp only [Fin.sum_univ_seven, vec7_at0, vec7_at1, vec7_at2, vec7_at3, vec7_at4, vec7_at5, vec7_at6]
    norm_num
  have hnsum5 : (∑ i, (![((-35530362555675852377981727329 : ℝ) / 1250000000000000000000), ((-11616571063118674535717097839 : ℝ) / 625000000000000000000), ((-81707241019716761986469924291 : ℝ) / 10000000000000000000000), ((-3108143875285942407914263889 : ℝ) / 2000000000000000000000), ((71773850278341407619263072379 : ℝ) / 10000000000000000000000), ((46355254550020911563353245387 : ℝ) / 2500000000000000000000), ((310603257452270181499186164367 : ℝ) / 10000000000000000000000)]) i * (![((-35530362555675852377981727329 : ℝ) / 1250000000000000000000), ((-11616571063118674535717097839 : ℝ) / 625000000000000000000), ((-81707241019716761986469924291 : ℝ) / 10000000000000000000000), ((-3108143875285942407914263889 : ℝ) / 2000000000000000000000), ((71773850278341407619263072379 : ℝ) / 10000000000000000000000), ((46355254550020911563353245387 : ℝ) / 2500000000000000000000), ((310603257452270181499186164367 : ℝ) / 10000000000000000000000)]) i) = ((12913214295860583851962936864673045392688059250490989365927 : ℝ) / 5000000000000000000000000000000000000000000) := by
    simp only [Fin.sum_univ_seven, vec7_at0, vec7_at1, vec7_at2, vec7_at3, vec7_at4, vec7_at5, vec7_at6]
    norm_num
  have hnc0 : ¬ (Real.sqrt ((934606423107627 : ℝ) / 200000000000) / Real.sqrt ((8237380919 : ℝ) / 50000000) -
      Real.sqrt ((17563 : ℝ) / 2500) / Real.sqrt (1 : ℝ) < pcaEpsilon) := by
    refine no_conv_of_bounds _ _ _ _ ((17548457614823711147896727624760659358923403 : ℝ) / 3294952367600000000000000000000000000000000) ((6626273462512696509938963207906949 : ℝ) / 2500000000000000000000000000000000)
      (by norm_num) (by norm_num) (by norm_num) (by norm_num) (by norm_num)
      (by norm_num) (by norm_num) (by norm_num [pcaEpsilon])
  have hnc1 : ¬ (Real.sqrt ((50150449887159282866869053 : ℝ) / 12500000000000000000) / Real.sqrt ((273259247460473525753 : ℝ) / 2000000000000000) -
      Real.sqrt ((934606423107627 : ℝ) / 200000000000) / Real.sqrt ((8237380919 : ℝ) / 50000000) < pcaEpsilon) := by
    refine no_conv_of_bounds _ _ _ _ ((4627376787252372219237609833218522087740664529292319081 : ℝ) / 853935148313979767978125000000000000000000000000000000) ((175484576148237111478967276247606593589234031 : ℝ) / 32949523676000000000000000000000000000000000)
      (by norm_num) (by norm_num) (by norm_num) (by norm_num) (by norm_num)
      (by norm_num) (by norm_num) (by norm_num [pcaEpsilon])
  have hnc2 : ¬ (Real.sqrt ((34639048044935226608560684933986274509 : ℝ) / 10000000000000000000000000000) / Real.sqrt ((117881881378352917805448614722607 : ℝ) / 1000000000000000000000000) -
      Real.sqrt ((50150449887159282866869053 : ℝ) / 12500000000000000000) / Real.sqrt ((273259247460473525753 : ℝ) / 2000000000000000) < pcaEpsilon) := by
    refine no_conv_of_bounds _ _ _ _ ((3195041530517295925992122213179535295846779580218460961906431587139 : ℝ) / 589409406891764589027243073613035000000000000000000000000000000000) ((9254753574504744438475219666437044175481329058584638163 : ℝ) / 1707870296627959535956250000000000000000000000000000000)
      (by norm_num) (by norm_num) (by norm_num) (by norm_num) (by norm_num)
      (by norm_num) (by norm_num) (by norm_num [pcaEpsilon])
  have hnc3 : ¬ (Real.sqrt ((2990988107086200967049482520429633434148889251081 : ℝ) / 1000000000000000000000000000000000000) / Real.sqrt ((2035728960393392725577244178976509316772121 : ℝ) / 20000000000000000000000000000000) -
      Real.sqrt ((34639048044935226608560684933986274509 : ℝ) / 10000000000000000000000000000) / Real.sqrt ((117881881378352917805448614722607 : ℝ) / 1000000000000000000000000) < pcaEpsilon) := by
    refine no_conv_of_bounds _ _ _ _ ((551762680406512881829618566287986204215837344460642810789834906272632995990421 : ℝ) / 101786448019669636278862208948825465838606050000000000000000000000000000000000) ((6390083061034591851984244426359070591693559160436921923812863174279 : ℝ) / 1178818813783529178054486147226070000000000000000000000000000000000)
      (by norm_num) (by norm_num) (by norm_num) (by norm_num) (by norm_num)
      (by norm_num) (by norm_num) (by norm_num [pcaEpsilon])
  have hcv4 : Real.sqrt ((12913214295860583851962936864673045392688059250490989365927 : ℝ) / 5000000000000000000000000000000000000000000) / Real.sqrt ((878900098305115663655742864405313836865396846247759759 : ℝ) / 10000000000000000000000000000000000000000) -
      Real.sqrt ((2990988107086200967049482520429633434148889251081 : ℝ) / 1000000000000000000000000000000000000) / Real.sqrt ((2035728960393392725577244178976509316772121 : ℝ) / 20000000000000000000000000000000) < pcaEpsilon := by
    refine conv_of_bounds _ _ _ _ ((8507734069232156394975467497529485862612571939244838301142076235525653826647643877841 : ℝ) / 1569464461259135113670969400723774708688208654013856712500000000000000000000000000000) ((551762680406512881829618566287986204215837344460642810789834906272632995990421 : ℝ) / 101786448019669636278862208948825465838606050000000000000000000000000000000000)
      (by norm_num) (by norm_num) (by norm_num) (by norm_num) (by norm_num)
      (by norm_num) (by norm_num) (by norm_num [pcaEpsilon])
  rw [initialScoreVector_testX]
  rw [show pcaMaxIterations = 499 + 1 from rfl]
  rw [pcaLoop_step_cont testX 499 ![((-137 : ℝ) / 100), ((-28 : ℝ) / 25), ((-93 : ℝ) / 100), ((31 : ℝ) / 50), ((93 : ℝ) / 100), ((53 : ℝ) / 50), ((81 : ℝ) / 100)] ![((-19223051 : ℝ) / 500000), ((-5145409 : ℝ) / 200000), ((-1692531 : ℝ) / 125000), ((917319 : ℝ) / 1000000), ((5897979 : ℝ) / 500000), ((25713009 : ℝ) / 1000000), ((19675907 : ℝ) / 500000)] ![((15281 : ℝ) / 5000), ((15169 : ℝ) / 2500), ((52317 : ℝ) / 10000), ((17563 : ℝ) / 2500), ((12941 : ℝ) / 2000)]
    (1 : ℝ) ((8237380919 : ℝ) / 50000000) ((17563 : ℝ) / 2500) ((934606423107627 : ℝ) / 200000000000) _
    (by norm_num) (by norm_num) hw0 hv1 hssum0 hnsum0 hnsum1 hnc0]
  rw [show (499 : ℕ) = 498 + 1 from rfl]
  rw [pcaLoop_step_cont testX 498 ![((-19223051 : ℝ) / 500000), ((-5145409 : ℝ) / 200000), ((-1692531 : ℝ) / 125000), ((917319 : ℝ) / 1000000), ((5897979 : ℝ) / 500000), ((25713009 : ℝ) / 1000000), ((19675907 : ℝ) / 500000)] ![((-11214361760599 : ℝ) / 10000000000), ((-3678913854047 : ℝ) / 5000000000), ((-1664012139531 : ℝ) / 5000000000), ((-486349865047 : ℝ) / 10000000000), ((2913392587501 : ℝ) / 10000000000), ((3670704203371 : ℝ) / 5000000000), ((12149388678487 : ℝ) / 10000000000)] ![((6814878013 : ℝ) / 50000000), ((1793868923 : ℝ) / 10000000), ((16632307431 : ℝ) / 100000000), ((8237380919 : ℝ) / 50000000), ((2203257491 : ℝ) / 12500000)]
    ((8237380919 : ℝ) / 50000000) ((273259247460473525753 : ℝ) / 2000000000000000) ((934606423107627 : ℝ) / 200000000000) ((50150449887159282866869053 : ℝ) / 12500000000000000000) _
    (by norm_num) (by norm_num) hw1 hv2 hssum1 hnsum1 hnsum2 hnc1]
  rw [show (498 : ℕ) = 497 + 1 from rfl]
  rw [pcaLoop_step_cont testX 497 ![((-11214361760599 : ℝ) / 10000000000), ((-3678913854047 : ℝ) / 5000000000), ((-1664012139531 : ℝ) / 5000000000), ((-486349865047 : ℝ) / 10000000000), ((2913392587501 : ℝ) / 10000000000), ((3670704203371 : ℝ) / 5000000000), ((12149388678487 : ℝ) / 10000000000)] ![((-1646154215590697547 : ℝ) / 50000000000000), ((-10769195503896331 : ℝ) / 500000000000), ((-237660253643154359 : ℝ) / 25000000000000), ((-43710424079075149 : ℝ) / 25000000000000), ((417290019958264319 : ℝ) / 50000000000000), ((1074363747723828623 : ℝ) / 50000000000000), ((3593450809011198401 : ℝ) / 100000000000000)] ![((4202027266229093 : ℝ) / 1000000000000), ((2637027472144263 : ℝ) / 500000000000), ((615864969283953 : ℝ) / 125000000000), ((934606423107627 : ℝ) / 200000000000), ((5128101525804959 : ℝ) / 1000000000000)]
    ((273259247460473525753 : ℝ) / 2000000000000000) ((117881881378352917805448614722607 : ℝ) / 1000000000000000000000000) ((50150449887159282866869053 : ℝ) / 12500000000000000000) ((34639048044935226608560684933986274509 : ℝ) / 10000000000000000000000000000) _
    (by norm_num) (by norm_num) hw2 hv3 hssum2 hnsum2 hnsum3 hnc2]
  rw [show (497 : ℕ) = 496 + 1 from rfl]
  rw [pcaLoop_step_cont testX 496 ![((-1646154215590697547 : ℝ) / 50000000000000), ((-10769195503896331 : ℝ) / 500000000000), ((-237660253643154359 : ℝ) / 25000000000000), ((-43710424079075149 : ℝ) / 25000000000000), ((417290019958264319 : ℝ) / 50000000000000), ((1074363747723828623 : ℝ) / 50000000000000), ((3593450809011198401 : ℝ) / 100000000000000)] ![((-241831078095718881728271 : ℝ) / 250000000000000000), ((-126513125659055440849397 : ℝ) / 200000000000000000), ((-1112865441074259741721 : ℝ) / 4000000000000000), ((-52701036189287306492191 : ℝ) / 1000000000000000000), ((244374143200509721080641 : ℝ) / 1000000000000000000), ((631055244416749020242887 : ℝ) / 1000000000000000000), ((1056882832650441267573513 : ℝ) / 1000000000000000000)] ![((1242928117557314262987 : ℝ) / 10000000000000000), ((1549862547691611452981 : ℝ) / 10000000000000000), ((1449228046819545938667 : ℝ) / 10000000000000000), ((273259247460473525753 : ℝ) / 2000000000000000), ((1504883131695035814531 : ℝ) / 10000000000000000)]
    ((117881881378352917805448614722607 : ℝ) / 1000000000000000000000000) ((2035728960393392725577244178976509316772121 : ℝ) / 20000000000000000000000000000000) ((34639048044935226608560684933986274509 : ℝ) / 10000000000000000000000000000) ((2990988107086200967049482520429633434148889251081 : ℝ) / 1000000000000000000000000000000000000) _
    (by norm_num) (by norm_num) hw3 hv4 hssum3 hnsum3 hnsum4 hnc3]
  rw [show (496 : ℕ) = 495 + 1 from rfl]
  rw [pcaLoop_step_break testX 495 ![((-241831078095718881728271 : ℝ) / 250000000000000000), ((-126513125659055440849397 : ℝ) / 200000000000000000), ((-1112865441074259741721 : ℝ) / 4000000000000000), ((-52701036189287306492191 : ℝ) / 1000000000000000000), ((244374143200509721080641 : ℝ) / 1000000000000000000), ((631055244416749020242887 : ℝ) / 1000000000000000000), ((1056882832650441267573513 : ℝ) / 1000000000000000000)] ![((-35530362555675852377981727329 : ℝ) / 1250000000000000000000), ((-11616571063118674535717097839 : ℝ) / 625000000000000000000), ((-81707241019716761986469924291 : ℝ) / 10000000000000000000000), ((-3108143875285942407914263889 : ℝ) / 2000000000000000000000), ((71773850278341407619263072379 : ℝ) / 10000000000000000000000), ((46355254550020911563353245387 : ℝ) / 2500000000000000000000), ((310603257452270181499186164367 : ℝ) / 10000000000000000000000)] ![((365570118744807534756851949 : ℝ) / 100000000000000000000), ((455429261458792676745403087 : ℝ) / 100000000000000000000), ((425912206926824729029026447 : ℝ) / 100000000000000000000), ((50150449887159282866869053 : ℝ) / 12500000000000000000), ((221064039621574875246795251 : ℝ) / 50000000000000000000)]
    ((2035728960393392725577244178976509316772121 : ℝ) / 20000000000000000000000000000000) ((878900098305115663655742864405313836865396846247759759 : ℝ) / 10000000000000000000000000000000000000000) ((2990988107086200967049482520429633434148889251081 : ℝ) / 1000000000000000000000000000000000000) ((12913214295860583851962936864673045392688059250490989365927 : ℝ) / 5000000000000000000000000000000000000000000) _
    (by norm_num) (by norm_num) hw4 hv5 hssum4 hnsum4 hnsum5 hcv4]

set_option maxHeartbeats 2000000 in
/-- Claim C1: on the fixed 7×5 test matrix, NIPALS PCA with 5
components returns normally and produces first-component scores and
loadings within an absolute tolerance of 0.01 of the specified values. -/
theorem pca_end_to_end_first_component :
    ∃ res : PCAResult ℝ 7 5 5, NIPALS Real.sqrt testX 5 = GoRun.ret res ∧
      (∀ i, |res.T i 0 - expectedScores1 i| ≤ 1 / 100) ∧
      (∀ j, |res.P j 0 - expectedLoadings1 j| ≤ 1 / 100) := by
  refine ⟨nipalsBody Real.sqrt testX 5,
    NIPALS_eq_body Real.sqrt testX 5 (by norm_num) (by norm_num), ?_, ?_⟩
  · refine forall_fin7 ?_ ?_ ?_ ?_ ?_ ?_ ?_
    · rw [NIPALS_testX_col0.1 0, c1_loop_eval]
      simp only [expectedScores1, vec7_at0, vec7_at1, vec7_at2, vec7_at3, vec7_at4, vec7_at5, vec7_at6]
      rw [show ((-241831078095718881728271 : ℝ) / 250000000000000000) / Real.sqrt ((2035728960393392725577244178976509316772121 : ℝ) / 20000000000000000000000000000000) - (-3.034 : ℝ) =
        -(((241831078095718881728271 : ℝ) / 250000000000000000) / Real.sqrt ((2035728960393392725577244178976509316772121 : ℝ) / 20000000000000000000000000000000) - (3.034 : ℝ)) by ring, abs_neg]
      exact abs_div_sqrt_sub_le ((241831078095718881728271 : ℝ) / 250000000000000000) ((2035728960393392725577244178976509316772121 : ℝ) / 20000000000000000000000000000000) (3.034 : ℝ) (1 / 100) ((1276159538739069324698951502280839140791735050913352660941484004159 : ℝ) / 4000000000000000000000000000000000000000000000000000000000000) ((1595199423423836655873689377851048925989668813641690826176855005199 : ℝ) / 5000000000000000000000000000000000000000000000000000000000000)
        (by norm_num) (by norm_num) (by norm_num) (by norm_num) (by norm_num)
        (by norm_num) (by norm_num)
    · rw [NIPALS_testX_col0.1 1, c1_loop_eval]
      simp only [expectedScores1, vec7_at0, vec7_at1, vec7_at2, vec7_at3, vec7_at4, vec7_at5, vec7_at6]
      rw [show ((-126513125659055440849397 : ℝ) / 200000000000000000) / Real.sqrt ((2035728960393392725577244178976509316772121 : ℝ) / 20000000000000000000000000000000) - (-1.981 : ℝ) =
        -(((126513125659055440849397 : ℝ) / 200000000000000000) / Real.sqrt ((2035728960393392725577244178976509316772121 : ℝ) / 20000000000000000000000000000000) - (1.981 : ℝ)) by ring, abs_neg]
      exact abs_div_sqrt_sub_le ((126513125659055440849397 : ℝ) / 200000000000000000) ((2035728960393392725577244178976509316772121 : ℝ) / 20000000000000000000000000000000) (1.981 : ℝ) (1 / 100) ((1276159538739069324698951502280839140791735050913352660941484004159 : ℝ) / 4000000000000000000000000000000000000000000000000000000000000) ((1595199423423836655873689377851048925989668813641690826176855005199 : ℝ) / 5000000000000000000000000000000000000000000000000000000000000)
        (by norm_num) (by norm_num) (by norm_num) (by norm_num) (by norm_num)
        (by norm_num) (by norm_num)
    · rw [NIPALS_testX_col0.1 2, c1_loop_eval]
      simp only [expectedScores1, vec7_at0, vec7_at1, vec7_at2, vec7_at3, vec7_at4, vec7_at5, vec7_at6]
      rw [show ((-1112865441074259741721 : ℝ) / 4000000000000000) / Real.sqrt ((2035728960393392725577244178976509316772121 : ℝ) / 20000000000000000000000000000000) - (-0.874 : ℝ) =
        -(((1112865441074259741721 : ℝ) / 4000000000000000) / Real.sqrt ((2035728960393392725577244178976509316772121 : ℝ) / 20000000000000000000000000000000) - (0.874 : ℝ)) by ring, abs_neg]
      exact abs_div_sqrt_sub_le ((1112865441074259741721 : ℝ) / 4000000000000000) ((2035728960393392725577244178976509316772121 : ℝ) / 20000000000000000000000000000000) (0.874 : ℝ) (1 / 100) ((1276159538739069324698951502280839140791735050913352660941484004159 : ℝ) / 4000000000000000000000000000000000000000000000000000000000000) ((1595199423423836655873689377851048925989668813641690826176855005199 : ℝ) / 5000000000000000000000000000000000000000000000000000000000000)
        (by norm_num) (by norm_num) (by norm_num) (by norm_num) (by norm_num)
        (by norm_num) (by norm_num)
    · rw [NIPALS_testX_col0.1 3, c1_loop_eval]
      simp only [expectedScores1, vec7_at0, vec7_at1, vec7_at2, vec7_at3, vec7_at4, vec7_at5, vec7_at6]
      rw [show ((-52701036189287306492191 : ℝ) / 1000000000000000000) / Real.sqrt ((2035728960393392725577244178976509316772121 : ℝ) / 20000000000000000000000000000000) - (-0.168 : ℝ) =
        -(((52701036189287306492191 : ℝ) / 1000000000000000000) / Real.sqrt ((2035728960393392725577244178976509316772121 : ℝ) / 20000000000000000000000000000000) - (0.168 : ℝ)) by ring, abs_neg]
      exact abs_div_sqrt_sub_le ((52701036189287306492191 : ℝ) / 1000000000000000000) ((2035728960393392725577244178976509316772121 : ℝ) / 20000000000000000000000000000000) (0.168 : ℝ) (1 / 100) ((1276159538739069324698951502280839140791735050913352660941484004159 : ℝ) / 4000000000000000000000000000000000000000000000000000000000000) ((1595199423423836655873689377851048925989668813641690826176855005199 : ℝ) / 5000000000000000000000000000000000000000000000000000000000000)
        (by norm_num) (by norm_num) (by norm_num) (by norm_num) (by norm_num)
        (by norm_num) (by norm_num)
    · rw [NIPALS_testX_col0.1 4, c1_loop_eval]
      simp only [expectedScores1, vec7_at0, vec7_at1, vec7_at2, vec7_at3, vec7_at4, vec7_at5, vec7_at6]
      exact abs_div_sqrt_sub_le ((244374143200509721080641 : ℝ) / 1000000000000000000) ((2035728960393392725577244178976509316772121 : ℝ) / 20000000000000000000000000000000) (0.764 : ℝ) (1 / 100) ((1276159538739069324698951502280839140791735050913352660941484004159 : ℝ) / 4000000000000000000000000000000000000000000000000000000000000) ((1595199423423836655873689377851048925989668813641690826176855005199 : ℝ) / 5000000000000000000000000000000000000000000000000000000000000)
        (by norm_num) (by norm_num) (by norm_num) (by norm_num) (by norm_num)
        (by norm_num) (by norm_num)
    · rw [NIPALS_testX_col0.1 5, c1_loop_eval]
      simp only [expectedScores1, vec7_at0, vec7_at1, vec7_at2, vec7_at3, vec7_at4, vec7_at5, vec7_at6]
      exact abs_div_sqrt_sub_le ((631055244416749020242887 : ℝ) / 1000000000000000000) ((2035728960393392725577244178976509316772121 : ℝ) / 20000000000000000000000000000000) (1.977 : ℝ) (1 / 100) ((1276159538739069324698951502280839140791735050913352660941484004159 : ℝ) / 4000000000000000000000000000000000000000000000000000000000000) ((1595199423423836655873689377851048925989668813641690826176855005199 : ℝ) / 5000000000000000000000000000000000000000000000000000000000000)
        (by norm_num) (by norm_num) (by norm_num) (by norm_num) (by norm_num)
        (by norm_num) (by norm_num)
    · rw [NIPALS_testX_col0.1 6, c1_loop_eval]
      simp only [expectedScores1, vec7_at0, vec7_at1, vec7_at2, vec7_at3, vec7_at4, vec7_at5, vec7_at6]
      exact abs_div_sqrt_sub_le ((1056882832650441267573513 : ℝ) / 1000000000000000000) ((2035728960393392725577244178976509316772121 : ℝ) / 20000000000000000000000000000000) (3.316 : ℝ) (1 / 100) ((1276159538739069324698951502280839140791735050913352660941484004159 : ℝ) / 4000000000000000000000000000000000000000000000000000000000000) ((1595199423423836655873689377851048925989668813641690826176855005199 : ℝ) / 5000000000000000000000000000000000000000000000000000000000000)
        (by norm_num) (by norm_num) (by norm_num) (by norm_num) (by norm_num)
        (by norm_num) (by norm_num)
  · refine forall_fin5 ?_ ?_ ?_ ?_ ?_
    · rw [NIPALS_testX_col0.2 0, c1_loop_eval]
      simp only [expectedLoadings1, vec5_at0, vec5_at1, vec5_at2, vec5_at3, vec5_at4]
      exact abs_div_sqrt_sub_le ((365570118744807534756851949 : ℝ) / 100000000000000000000) ((878900098305115663655742864405313836865396846247759759 : ℝ) / 10000000000000000000000000000000000000000) (0.391 : ℝ) (1 / 100) ((5859354494314504317773194512144035950102110180391727749979326009863311508973 : ℝ) / 625000000000000000000000000000000000000000000000000000000000000000000) ((93749671909032069084371112194304575201633762886267643999669216157812984143569 : ℝ) / 10000000000000000000000000000000000000000000000000000000000000000000000)
        (by norm_num) (by norm_num) (by norm_num) (by norm_num) (by norm_num)
        (by norm_num) (by norm_num)
    · rw [NIPALS_testX_col0.2 1, c1_loop_eval]
      simp only [expectedLoadings1, vec5_at0, vec5_at1, vec5_at2, vec5_at3, vec5_at4]
      exact abs_div_sqrt_sub_le ((455429261458792676745403087 : ℝ) / 100000000000000000000) ((878900098305115663655742864405313836865396846247759759 : ℝ) / 10000000000000000000000000000000000000000) (0.487 : ℝ) (1 / 100) ((5859354494314504317773194512144035950102110180391727749979326009863311508973 : ℝ) / 625000000000000000000000000000000000000000000000000000000000000000000) ((93749671909032069084371112194304575201633762886267643999669216157812984143569 : ℝ) / 10000000000000000000000000000000000000000000000000000000000000000000000)
        (by norm_num) (by norm_num) (by norm_num) (by norm_num) (by norm_num)
        (by norm_num) (by norm_num)
    · rw [NIPALS_testX_col0.2 2, c1_loop_eval]
      simp only [expectedLoadings1, vec5_at0, vec5_at1, vec5_at2, vec5_at3, vec5_at4]
      exact abs_div_sqrt_sub_le ((425912206926824729029026447 : ℝ) / 100000000000000000000) ((878900098305115663655742864405313836865396846247759759 : ℝ) / 10000000000000000000000000000000000000000) (0.454 : ℝ) (1 / 100) ((5859354494314504317773194512144035950102110180391727749979326009863311508973 : ℝ) / 625000000000000000000000000000000000000000000000000000000000000000000) ((93749671909032069084371112194304575201633762886267643999669216157812984143569 : ℝ) / 10000000000000000000000000000000000000000000000000000000000000000000000)
        (by norm_num) (by norm_num) (by norm_num) (by norm_num) (by norm_num)
        (by norm_num) (by norm_num)
    · rw [NIPALS_testX_col0.2 3, c1_loop_eval]
      simp only [expectedLoadings1, vec5_at0, vec5_at1, vec5_at2, vec5_at3, vec5_at4]
      exact abs_div_sqrt_sub_le ((50150449887159282866869053 : ℝ) / 12500000000000000000) ((878900098305115663655742864405313836865396846247759759 : ℝ) / 10000000000000000000000000000000000000000) (0.426 : ℝ) (1 / 100) ((5859354494314504317773194512144035950102110180391727749979326009863311508973 : ℝ) / 625000000000000000000000000000000000000000000000000000000000000000000) ((93749671909032069084371112194304575201633762886267643999669216157812984143569 : ℝ) / 10000000000000000000000000000000000000000000000000000000000000000000000)
        (by norm_num) (by norm_num) (by norm_num) (by norm_num) (by norm_num)
        (by norm_num) (by norm_num)
    · rw [NIPALS_testX_col0.2 4, c1_loop_eval]
      simp only [expectedLoadings1, vec5_at0, vec5_at1, vec5_at2, vec5_at3, vec5_at4]
      exact abs_div_sqrt_sub_le ((221064039621574875246795251 : ℝ) / 50000000000000000000) ((878900098305115663655742864405313836865396846247759759 : ℝ) / 10000000000000000000000000000000000000000) (0.471 : ℝ) (1 / 100) ((5859354494314504317773194512144035950102110180391727749979326009863311508973 : ℝ) / 625000000000000000000000000000000000000000000000000000000000000000000) ((93749671909032069084371112194304575201633762886267643999669216157812984143569 : ℝ) / 10000000000000000000000000000000000000000000000000000000000000000000000)
        (by norm_num) (by norm_num) (by norm_num) (by norm_num) (by norm_num)
        (by norm_num) (by norm_num)

end GoLV
